import Mathlib

/- The Batteries rational-number operations are `@[irreducible]`, which
prevents `decide` from evaluating concrete rational arithmetic; restore
the default reducibility for this development so concrete runs of the
embedded engine can be checked by the kernel. -/
attribute [local semireducible] Rat.add Rat.mul Rat.inv Rat.sub Rat.ofScientific

/-!
Verification of the rule-based obstetric prediction engine
(`utils/PredictionEngine.js`).

The JavaScript source is shallowly embedded as follows.

* JavaScript numbers are modelled as exact rationals (`ℚ`); `NaN` is the
  extra constructor `JSVal.nan`.  A field value is a `JSVal`: a number,
  `NaN`, a string, `null` or `undefined` (nested objects never occur as
  field values in this code path and are outside the model).
* Implicit coercions (`ToNumber` on relational operators, `+`/`-`/`*`
  coercion, truthiness) are modelled explicitly (`toNum`, `truthy`,
  `jsAdd`, ...).  String-to-number conversion covers the decimal
  numerals the code manipulates (optionally signed integer / decimal
  fraction notation, surrounding whitespace, empty string ↦ 0); exotic
  forms (hex, exponents, `Infinity`) are outside the model.
* Operations that can raise a `TypeError` (calling `.toFixed` on a
  non-number, `.toLowerCase` on a number) return in the `Except Unit`
  monad; `Except.error ()` models an exception escaping to the caller.
  `bpString.split` on a non-string also raises, but the source wraps it
  in `try`/`catch`, so `parseBloodPressure` is total.
* `Math.random()` draws, `Math.sin` (a float approximation of an
  irrational function) and JavaScript number-to-string formatting are
  abstracted into an environment `Env`; the `Math.random()` calls of
  week `j` (0-based) of the projection loop are, in source order
  (fundal, systolic, diastolic, fetal heart rate), the stream elements
  `4*j`, `4*j+1`, `4*j+2`, `4*j+3`.
* `Array.prototype.sort` is required by the language to be a stable
  sort; it is modelled by the stable `List.insertionSort` on the
  comparator key.  The in-place sort mutating `this.validatedVisits`
  is modelled by explicit state passing (`generatePredictionS` returns
  the updated engine).
-/

deriving instance DecidableEq for Except

namespace PredictionEngine

/-- A JavaScript field value: a number, `NaN`, a string, `null` or
`undefined`. -/
inductive JSVal where
  | num : ℚ → JSVal
  | nan : JSVal
  | str : String → JSVal
  | null : JSVal
  | undef : JSVal
deriving DecidableEq, Inhabited

/-- JavaScript truthiness of a `JSVal` (`0`, `NaN`, `""`, `null` and
`undefined` are falsy). -/
def truthy : JSVal → Bool
  | .num q => q ≠ 0
  | .nan => false
  | .str s => s ≠ ""
  | .null => false
  | .undef => false

/-- Splitting a character list on a separator character; models
`String.prototype.split` with a one-character separator
(`"".split(c) = [""]`). -/
def splitOnChar (sep : Char) : List Char → List (List Char)
  | [] => [[]]
  | c :: t =>
    let r := splitOnChar sep t
    if c = sep then [] :: r
    else
      match r with
      | h :: t' => (c :: h) :: t'
      | [] => [[c]]

/-- JavaScript whitespace characters stripped by `ToNumber` (ASCII
subset). -/
def wsChar (c : Char) : Bool := c = ' ' || c = '\t' || c = '\n' || c = '\r'

/-- Strip leading and trailing whitespace from a character list. -/
def trimChars (l : List Char) : List Char :=
  ((l.dropWhile wsChar).reverse.dropWhile wsChar).reverse

/-- Value of a non-empty all-digit character list, `none` otherwise. -/
def digitsToNat : List Char → Option ℕ
  | [] => none
  | l =>
    if l.all Char.isDigit then
      some (l.foldl (fun n c => 10 * n + (c.toNat - 48)) 0)
    else none

/-- Unsigned decimal numeral (`"12"`, `"12.5"`, `".5"`, `"12."`);
`none` models `NaN`. -/
def decListToNum (l : List Char) : Option ℚ :=
  match splitOnChar '.' l with
  | [a] => (digitsToNat a).map (fun n => (n : ℚ))
  | [a, b] =>
    if a = [] ∧ b = [] then none
    else
      match (if a = [] then some 0 else digitsToNat a),
            (if b = [] then some 0 else digitsToNat b) with
      | some n, some m => some ((n : ℚ) + (m : ℚ) / 10 ^ b.length)
      | _, _ => none
  | _ => none

/-- JavaScript `ToNumber` on a string (`Number(s)`): trims whitespace,
the empty string is `0`, otherwise an optionally signed decimal
numeral; `none` models `NaN`. -/
def strToNum (s : String) : Option ℚ :=
  match trimChars s.data with
  | [] => some 0
  | '-' :: rest => (decListToNum rest).map Neg.neg
  | '+' :: rest => decListToNum rest
  | l => decListToNum l

/-- JavaScript `ToNumber` of a `JSVal` (`none` models `NaN`). -/
def toNum : JSVal → Option ℚ
  | .num q => some q
  | .nan => none
  | .str s => strToNum s
  | .null => some 0
  | .undef => none

/-- Source `v < c` for a numeric literal `c` (`NaN` comparisons are false). -/
def ltLit (v : JSVal) (c : ℚ) : Bool :=
  match toNum v with
  | some q => q < c
  | none => false

/-- Source `v > c` for a numeric literal `c`. -/
def gtLit (v : JSVal) (c : ℚ) : Bool :=
  match toNum v with
  | some q => c < q
  | none => false

/-- Source `v <= c` for a numeric literal `c`. -/
def leLit (v : JSVal) (c : ℚ) : Bool :=
  match toNum v with
  | some q => q ≤ c
  | none => false

/-- Source `a || b`. -/
def jsOr (a b : JSVal) : JSVal := if truthy a then a else b

/-- Source `a || null`, the normalization applied to every visit field. -/
def jsOrNull (a : JSVal) : JSVal := jsOr a .null

/-- The abstracted impure/implementation-defined primitives: the
`Math.random()` stream, the `Math.sin` float approximation, JavaScript
number formatting (used only inside string concatenations whose content
is never observed), and the `new Date().toISOString()` timestamp. -/
structure Env where
  rand : ℕ → ℚ
  sin : ℚ → ℚ
  numToStr : ℚ → String
  now : String

/-- JavaScript `ToString` on the values of this model. -/
def jsToStr (env : Env) : JSVal → String
  | .num q => env.numToStr q
  | .nan => "NaN"
  | .str s => s
  | .null => "null"
  | .undef => "undefined"

/-- JavaScript `+`: string concatenation if either operand is a string,
numeric addition otherwise (`null` coerces to `0`, `undefined` to
`NaN`). -/
def jsAdd (env : Env) (a b : JSVal) : JSVal :=
  match a, b with
  | .str _, _ => .str (jsToStr env a ++ jsToStr env b)
  | _, .str _ => .str (jsToStr env a ++ jsToStr env b)
  | _, _ =>
    match toNum a, toNum b with
    | some x, some y => .num (x + y)
    | _, _ => .nan

/-- JavaScript `-`: always numeric. -/
def jsSub (a b : JSVal) : JSVal :=
  match toNum a, toNum b with
  | some x, some y => .num (x - y)
  | _, _ => .nan

/-- JavaScript `*`: always numeric. -/
def jsMul (a b : JSVal) : JSVal :=
  match toNum a, toNum b with
  | some x, some y => .num (x * y)
  | _, _ => .nan

/-- JavaScript `/`: always numeric.  Division by zero yields
`Infinity` in JavaScript, which is outside the model; the only division
in the source (`calculateTrend`) is guarded by `weekDiff > 0`, so the
`nan` answer for a zero divisor is never observable. -/
def jsDiv (a b : JSVal) : JSVal :=
  match toNum a, toNum b with
  | some x, some y => if y = 0 then .nan else .num (x / y)
  | _, _ => .nan

/-- Source `Math.abs` (coerces its argument). -/
def jsAbs (a : JSVal) : JSVal :=
  match toNum a with
  | some x => .num |x|
  | none => .nan

/-- Source `Math.max` of a literal and a value (coerces, `NaN` propagates). -/
def jsMax (a b : JSVal) : JSVal :=
  match toNum a, toNum b with
  | some x, some y => .num (max x y)
  | _, _ => .nan

/-- Source `Math.min` of a literal and a value (coerces, `NaN` propagates). -/
def jsMin (a b : JSVal) : JSVal :=
  match toNum a, toNum b with
  | some x, some y => .num (min x y)
  | _, _ => .nan

/-- Source `Math.round` on an exact rational: round half toward `+∞`. -/
def qRound (q : ℚ) : ℚ := (⌊q + 1 / 2⌋ : ℤ)

/-- Source `Math.round` on a `JSVal` (coerces, `NaN` propagates). -/
def jsRoundInt (v : JSVal) : JSVal :=
  match toNum v with
  | some q => .num (qRound q)
  | none => .nan

/-- Source `Number(value.toFixed(d))` on an exact rational: round half away
from zero; all values rounded by the source are non-negative, where
this agrees with round half toward `+∞`. -/
def roundTo (d : ℕ) (q : ℚ) : ℚ := (⌊q * 10 ^ d + 1 / 2⌋ : ℤ) / 10 ^ d

/-- Source `roundValue(value, decimals)` = `Number(value.toFixed(decimals))`.
`NaN.toFixed` is the string `"NaN"`, which `Number` turns back into
`NaN`; calling `.toFixed` on a string, `null` or `undefined` raises a
`TypeError`. -/
def roundValue (v : JSVal) (d : ℕ) : Except Unit JSVal :=
  match v with
  | .num q => .ok (.num (roundTo d q))
  | .nan => .ok .nan
  | _ => .error ()

/-- Source `roundProbability(value)` = `Math.round(value * 100) / 100` (the
source only ever applies it to numbers). -/
def roundProbability (q : ℚ) : ℚ := qRound (q * 100) / 100

/-- A parsed blood-pressure pair; both components are numbers. -/
structure BPPair where
  systolic : ℚ
  diastolic : ℚ
deriving DecidableEq, Inhabited

/-- Source `parts[i] || default` after `bpString.split('/').map(Number)`:
a missing part is `undefined`, an unparsable part is `NaN`, and a
parsed `0` is falsy — all three fall back. -/
def partOr (p : Option (Option ℚ)) (d : ℚ) : ℚ :=
  match p with
  | some (some q) => if q = 0 then d else q
  | _ => d

/-- Source `parseBloodPressure(bpString)`.  A falsy argument returns the
fallback pair.  On a string it splits on `"/"` and parses both halves,
falling back per component.  On a truthy non-string `bpString.split`
raises a `TypeError`, which the source catches, returning the fallback
pair — so the function never raises to its caller. -/
def parseBloodPressure (v : JSVal) : BPPair :=
  if truthy v then
    match v with
    | .str s =>
      let parts := (splitOnChar '/' s.data).map (fun cs => strToNum (String.mk cs))
      ⟨partOr (parts.get? 0) 115, partOr (parts.get? 1) 70⟩
    | _ => ⟨115, 70⟩
  else ⟨115, 70⟩

/-- A visit-like object, restricted to the eight recognized fields read
by the engine (extra fields of the raw objects are never read and are
outside the model); an absent field is `undef`. -/
structure VisitObj where
  GESTATIONAL_AGE_WEEKS : JSVal := .undef
  MATERNAL_WEIGHT : JSVal := .undef
  FUNDAL_HEIGHT : JSVal := .undef
  HEMOGLOBIN_LEVEL : JSVal := .undef
  BLOOD_PRESSURE : JSVal := .undef
  FETAL_HEART_RATE : JSVal := .undef
  COMPLICATIONS : JSVal := .undef
  VISIT_DATE : JSVal := .undef
deriving DecidableEq, Inhabited

/-- The patient attributes read by the engine (`BMI_STATUS`,
`GRAVIDA`, ... are never read by this module); an absent field is
`undef`. -/
structure PatientObj where
  AGE : JSVal := .undef
  BMI_VALUE : JSVal := .undef
  PARITY : JSVal := .undef
  MEDICAL_HISTORY : JSVal := .undef
deriving DecidableEq, Inhabited

/-- The eight recognized visit fields, for the generic metric access of
`calculateTrend`. -/
inductive Field where
  | GESTATIONAL_AGE_WEEKS | MATERNAL_WEIGHT | FUNDAL_HEIGHT | HEMOGLOBIN_LEVEL
  | BLOOD_PRESSURE | FETAL_HEART_RATE | COMPLICATIONS | VISIT_DATE
deriving DecidableEq

/-- Source `visit[field]`. -/
def getField (v : VisitObj) : Field → JSVal
  | .GESTATIONAL_AGE_WEEKS => v.GESTATIONAL_AGE_WEEKS
  | .MATERNAL_WEIGHT => v.MATERNAL_WEIGHT
  | .FUNDAL_HEIGHT => v.FUNDAL_HEIGHT
  | .HEMOGLOBIN_LEVEL => v.HEMOGLOBIN_LEVEL
  | .BLOOD_PRESSURE => v.BLOOD_PRESSURE
  | .FETAL_HEART_RATE => v.FETAL_HEART_RATE
  | .COMPLICATIONS => v.COMPLICATIONS
  | .VISIT_DATE => v.VISIT_DATE

/-- The `.map` step of `validateVisits`: each of the eight fields
coalesced with `|| null`. -/
def normalizeVisit (v : VisitObj) : VisitObj where
  GESTATIONAL_AGE_WEEKS := jsOrNull v.GESTATIONAL_AGE_WEEKS
  MATERNAL_WEIGHT := jsOrNull v.MATERNAL_WEIGHT
  FUNDAL_HEIGHT := jsOrNull v.FUNDAL_HEIGHT
  HEMOGLOBIN_LEVEL := jsOrNull v.HEMOGLOBIN_LEVEL
  BLOOD_PRESSURE := jsOrNull v.BLOOD_PRESSURE
  FETAL_HEART_RATE := jsOrNull v.FETAL_HEART_RATE
  COMPLICATIONS := jsOrNull v.COMPLICATIONS
  VISIT_DATE := jsOrNull v.VISIT_DATE

/-- The `.filter` predicate of `validateVisits`:
`visit.GESTATIONAL_AGE_WEEKS && visit.GESTATIONAL_AGE_WEEKS > 0`. -/
def gaKeep (v : VisitObj) : Bool :=
  truthy v.GESTATIONAL_AGE_WEEKS && gtLit v.GESTATIONAL_AGE_WEEKS 0

/-- Source `validateVisits` on an array argument: map each element to its
normalized record, then keep those with a truthy, positive gestational
age.  Every operation involved is total, so the function never
raises. -/
def validateVisits (l : List VisitObj) : List VisitObj :=
  (l.map normalizeVisit).filter gaKeep

/-- The `visits` constructor argument: an array of visit-like objects
or an arbitrary non-array value. -/
inductive VisitsInput where
  | arrv : List VisitObj → VisitsInput
  | primv : JSVal → VisitsInput

/-- Source `validateVisits` as called from the constructor: a falsy or
non-array argument yields the empty collection (`!visits ||
!Array.isArray(visits)`, combined with the constructor's
`visits || []`). -/
def validateVisitsTop : VisitsInput → List VisitObj
  | .arrv l => validateVisits l
  | .primv _ => []

/-- The sort key of the comparator
`(a, b) => a.GESTATIONAL_AGE_WEEKS - b.GESTATIONAL_AGE_WEEKS`; every
validated visit has a numerically-valued gestational age, so the
`getD` default is never observable. -/
def gaQ (v : VisitObj) : ℚ := (toNum v.GESTATIONAL_AGE_WEEKS).getD 0

/-- The in-place `Array.prototype.sort` on the gestational-age
comparator.  ECMAScript requires `sort` to be stable, so the result is
the unique stable ascending reordering, modelled by the stable
`List.insertionSort`. -/
def sortByGA (l : List VisitObj) : List VisitObj :=
  l.insertionSort (fun a b => gaQ a ≤ gaQ b)

/-- Source `calculateTrend(field)` over a visit collection: `0` with fewer
than two visits; otherwise sort a copy ascending by gestational age and
take the metric's first and last values; `0` if either is falsy;
otherwise `(last - first) / weekDiff`, or `0` unless `weekDiff > 0`. -/
def calculateTrend (vs : List VisitObj) (f : Field) : JSVal :=
  if vs.length < 2 then .num 0
  else
    let sorted := sortByGA vs
    let first := getField (sorted.headD default) f
    let last := getField (sorted.getLastD default) f
    if truthy first = false ∨ truthy last = false then .num 0
    else
      let weekDiff := jsSub (sorted.getLastD default).GESTATIONAL_AGE_WEEKS
        (sorted.headD default).GESTATIONAL_AGE_WEEKS
      if gtLit weekDiff 0 then jsDiv (jsSub last first) weekDiff else .num 0

/-- Substring containment on character lists (models
`String.prototype.includes` for the non-empty pattern used by the
source). -/
def containsList (pat : List Char) : List Char → Bool
  | [] => pat.isEmpty
  | c :: t => pat.isPrefixOf (c :: t) || containsList pat t

/-- Source `hasPretermHistory()`.  The parity condition
`PARITY > 0 || PARITY === '1'` is evaluated first; only when it holds
is `MEDICAL_HISTORY?.toLowerCase().includes('preterm')` evaluated: the
optional chain passes `null`/`undefined` through (the conjunction is
then falsy), a string is searched, and any other value raises a
`TypeError` (`.toLowerCase` is not a method of numbers). -/
def hasPretermHistory (p : PatientObj) : Except Unit Bool :=
  if gtLit p.PARITY 0 || p.PARITY = .str "1" then
    match p.MEDICAL_HISTORY with
    | .null => pure false
    | .undef => pure false
    | .str s => pure (containsList "preterm".data (s.data.map Char.toLower))
    | _ => .error ()
  else pure false

/-- The six named risk scores.  Field order matches the insertion
order of the source's `scores` object literal, which is also the
`Object.entries`/`Object.values` enumeration order. -/
structure RiskScores where
  anemia : ℚ
  hypertension : ℚ
  growthRestriction : ℚ
  pretermRisk : ℚ
  maternalAgeRisk : ℚ
  bmiRisk : ℚ
deriving DecidableEq, Inhabited

/-- The anemia branch of `calculateRiskScores` (skipped — score `0` —
when the hemoglobin level is falsy). -/
def anemiaScore (latestVisit : VisitObj) : ℚ :=
  if truthy latestVisit.HEMOGLOBIN_LEVEL then
    if ltLit latestVisit.HEMOGLOBIN_LEVEL 10 then 0.8
    else if ltLit latestVisit.HEMOGLOBIN_LEVEL 11 then 0.4
    else 0.1
  else 0

/-- The hypertension branch of `calculateRiskScores` (skipped when the
blood-pressure field is falsy). -/
def hypertensionScore (latestVisit : VisitObj) : ℚ :=
  if truthy latestVisit.BLOOD_PRESSURE then
    let bp := parseBloodPressure latestVisit.BLOOD_PRESSURE
    if 140 ≤ bp.systolic ∨ 90 ≤ bp.diastolic then 0.9
    else if 130 ≤ bp.systolic ∨ 85 ≤ bp.diastolic then 0.6
    else 0.1
  else 0

/-- The growth-restriction branch of `calculateRiskScores` (skipped
unless both fundal height and gestational age are truthy). -/
def growthScore (latestVisit : VisitObj) : ℚ :=
  if truthy latestVisit.FUNDAL_HEIGHT && truthy latestVisit.GESTATIONAL_AGE_WEEKS then
    let diff := jsAbs (jsSub latestVisit.FUNDAL_HEIGHT latestVisit.GESTATIONAL_AGE_WEEKS)
    if gtLit diff 4 then 0.7
    else if gtLit diff 2 then 0.3
    else 0.1
  else 0

/-- The preterm branch of `calculateRiskScores`.  The lazy `&&` means
`hasPretermHistory` (the only raising step) is only consulted when the
current gestational age is below 37. -/
def pretermScore (currentGA : JSVal) (p : PatientObj) : Except Unit ℚ :=
  if ltLit currentGA 37 then do
    let h ← hasPretermHistory p
    if h then pure 0.6
    else pure (if ltLit currentGA 32 then 0.3 else 0.1)
  else pure (if ltLit currentGA 32 then (0.3 : ℚ) else 0.1)

/-- The maternal-age branch of `calculateRiskScores` (`AGE || 25`). -/
def ageScore (p : PatientObj) : ℚ :=
  let age := jsOr p.AGE (.num 25)
  if ltLit age 18 || gtLit age 35 then 0.4 else 0.1

/-- The BMI branch of `calculateRiskScores` (skipped when `BMI_VALUE`
is falsy). -/
def bmiScore (p : PatientObj) : ℚ :=
  let bmi := p.BMI_VALUE
  if truthy bmi then
    if ltLit bmi 18.5 || gtLit bmi 30 then 0.5
    else if gtLit bmi 25 then 0.3
    else 0.1
  else 0

/-- Source `calculateRiskScores()`, reading only the latest (maximum
gestational age) visit — the last element of the already-sorted
collection — and the patient record.  The preterm branch may raise
through `hasPretermHistory`; every other branch is pure. -/
def calculateRiskScores (vs : List VisitObj) (p : PatientObj) : Except Unit RiskScores := do
  let latestVisit := vs.getLastD default
  let pretermRisk ← pretermScore latestVisit.GESTATIONAL_AGE_WEEKS p
  pure ⟨anemiaScore latestVisit, hypertensionScore latestVisit, growthScore latestVisit,
    pretermRisk, ageScore p, bmiScore p⟩

/-- The delivery-type distribution record. -/
structure DeliveryType where
  FullTerm : ℚ
  Premature : ℚ
  MortalityRisk : ℚ
deriving DecidableEq

/-- The delivery-mode distribution record. -/
structure DeliveryMode where
  Normal : ℚ
  CSection : ℚ
deriving DecidableEq

/-- Source `calculateDeliveryTypeProbabilities(riskScores)`: average the six
scores, clamp the three raw weights, renormalize by their sum, round
each to two decimals independently. -/
def calculateDeliveryTypeProbabilities (s : RiskScores) : DeliveryType :=
  let totalRisk := (s.anemia + s.hypertension + s.growthRestriction + s.pretermRisk
    + s.maternalAgeRisk + s.bmiRisk) / 6
  let fullTerm := max 0.4 (0.80 - totalRisk * 0.3)
  let premature := min 0.4 (0.15 + totalRisk * 0.2)
  let mortalityRisk := min 0.2 (0.05 + totalRisk * 0.1)
  let sum := fullTerm + premature + mortalityRisk
  ⟨roundProbability (fullTerm / sum), roundProbability (premature / sum),
    roundProbability (mortalityRisk / sum)⟩

/-- Source `calculateDeliveryModeProbabilities(riskScores)`: the C-section
risk is capped at `0.7`; parity strictly equal to `0` or `'0'` adds
`0.1`. -/
def calculateDeliveryModeProbabilities (s : RiskScores) (p : PatientObj) : DeliveryMode :=
  let cSectionRisk := min 0.7 (s.hypertension * 0.4 + s.growthRestriction * 0.3
    + s.bmiRisk * 0.2 + (if p.PARITY = .num 0 ∨ p.PARITY = .str "0" then 0.1 else 0))
  ⟨roundProbability (1 - cSectionRisk), roundProbability cSectionRisk⟩

/-- Source `calculateExpectedDelivery(riskScores, deliveryType)`: baseline
`39.2` weeks / `3.3` kg, gestational age overridden by the premature
probability, weight reduced by the major risks and by prematurity of
the adjusted age, both clamped and rounded to one decimal. -/
def calculateExpectedDelivery (s : RiskScores) (dt : DeliveryType) : ℚ × ℚ :=
  let expectedGA : ℚ := if dt.Premature > 0.3 then 36.5
    else if dt.Premature > 0.15 then 38.0 else 39.2
  let expectedWeight : ℚ := 3.3
    - (if s.growthRestriction > 0.5 then 0.5 else 0)
    - (if s.hypertension > 0.5 then 0.3 else 0)
    - (if s.anemia > 0.5 then 0.2 else 0)
    - (if expectedGA < 37.5 then 0.4 else 0)
  let clampedGA := min 40.0 (max 35.0 expectedGA)
  let clampedWeight := min 4.0 (max 2.5 expectedWeight)
  (roundTo 1 clampedGA, roundTo 1 clampedWeight)

/-- The association list `Object.entries(riskScores)` in enumeration
order. -/
def riskEntries (s : RiskScores) : List (String × ℚ) :=
  [("anemia", s.anemia), ("hypertension", s.hypertension),
   ("growthRestriction", s.growthRestriction), ("pretermRisk", s.pretermRisk),
   ("maternalAgeRisk", s.maternalAgeRisk), ("bmiRisk", s.bmiRisk)]

/-- Source `Object.entries(riskScores).reduce((a, b) => a[1] > b[1] ? a : b)`:
a left fold over the entries starting from the first one, keeping the
accumulator only when it is strictly greater. -/
def primaryPair (s : RiskScores) : String × ℚ :=
  (riskEntries s).tail.foldl (fun a b => if a.2 > b.2 then a else b) ("anemia", s.anemia)

/-- Source `riskScores[name]` (`none` models `undefined` for an unknown
key). -/
def scoreByName (s : RiskScores) (n : String) : Option ℚ :=
  if n = "anemia" then some s.anemia
  else if n = "hypertension" then some s.hypertension
  else if n = "growthRestriction" then some s.growthRestriction
  else if n = "pretermRisk" then some s.pretermRisk
  else if n = "maternalAgeRisk" then some s.maternalAgeRisk
  else if n = "bmiRisk" then some s.bmiRisk
  else none

/-- Source `x > c` on an optional number (`undefined` comparisons are
false). -/
def optGt (o : Option ℚ) (c : ℚ) : Bool :=
  match o with
  | some q => c < q
  | none => false

/-- Source `formatRiskName(riskKey)` (`names[riskKey] || riskKey`). -/
def formatRiskName (n : String) : String :=
  if n = "anemia" then "anemia"
  else if n = "hypertension" then "hypertension"
  else if n = "growthRestriction" then "fetal growth restriction"
  else if n = "pretermRisk" then "preterm delivery"
  else if n = "maternalAgeRisk" then "maternal age"
  else if n = "bmiRisk" then "BMI-related"
  else n

/-- Source `generateSummary(riskScores, deliveryType, deliveryMode)`: pick the
primary risk by the reduce above, classify its score
(`> 0.7` high, `> 0.4` moderate, else low) and emit the matching
template (`summaries[riskLevel] || summaries.low`, equivalent to this
conditional since the level is always one of the three keys). -/
def generateSummary (s : RiskScores) (dt : DeliveryType) (_dm : DeliveryMode) : String :=
  let primaryRisk := (primaryPair s).1
  let prScore := scoreByName s primaryRisk
  let fullTermPercent := qRound (dt.FullTerm * 100)
  let prematurePercent := qRound (dt.Premature * 100)
  if optGt prScore 0.7 then
    "Elevated " ++ formatRiskName primaryRisk ++ " risk requires close monitoring. "
      ++ toString prematurePercent.num ++ "% premature delivery risk. Consider specialist consultation."
  else if optGt prScore 0.4 then
    "Moderate " ++ formatRiskName primaryRisk ++ " risk noted. "
      ++ toString fullTermPercent.num ++ "% chance of full-term delivery with increased monitoring recommended."
  else
    "Patient shows stable progression with " ++ toString fullTermPercent.num
      ++ "% likelihood of full-term normal delivery. Continue routine antenatal monitoring."

/-- The base vitals taken from the latest visit (with defaults) before
projection. -/
structure BaseVitals where
  weight : JSVal
  fundal : JSVal
  hb : JSVal
  fhr : JSVal
  bp : BPPair
deriving DecidableEq

/-- One `{week, value}` progression point. -/
structure ProgEntry where
  week : JSVal
  value : JSVal
deriving DecidableEq

/-- The six parallel progression series pushed by
`generateProgressionData`. -/
structure ProgressionData where
  weight : List ProgEntry
  fundal : List ProgEntry
  hb : List ProgEntry
  systolic : List ProgEntry
  diastolic : List ProgEntry
  fetal_hr : List ProgEntry
deriving DecidableEq

/-- The `progression` result field: the full data, or the empty object
`{}` returned by the at-term fallback. -/
inductive Progression where
  | emptyObj : Progression
  | data : ProgressionData → Progression
deriving DecidableEq

/-- The six values pushed during one iteration of the projection
loop. -/
structure ProgRow where
  week : JSVal
  wv : JSVal
  fv : JSVal
  hv : JSVal
  sv : JSVal
  dv : JSVal
  rv : JSVal
deriving DecidableEq

/-- Iteration `j` (0-based; the source's `i` is `j + 1`) of the
`generateProgressionData` loop.  The four `Math.random()` draws of the
iteration are the stream elements `4*j .. 4*j+3` in source order.  The
weight and fundal `roundValue` calls raise when their argument is a
string (a string-valued `baseVitals.weight` or a string-valued
`startWeek` contaminates the `+` into a concatenation). -/
def progRow (env : Env) (startWeek : JSVal) (b : BaseVitals) (j : ℕ) : Except Unit ProgRow := do
  let i : ℚ := j + 1
  let week := jsAdd env startWeek (.num i)
  let wv ← roundValue (jsAdd env b.weight (.num (i * 0.35))) 1
  let fv ← roundValue (jsAdd env week (.num (env.rand (4 * j) * 2 - 1))) 1
  let hv ← roundValue (jsMax (.num 10.5) (jsSub b.hb (.num (i * 0.05)))) 1
  let sv := jsRoundInt (jsAdd env (jsAdd env (.num b.bp.systolic) (.num (i * 0.25)))
    (.num (env.rand (4 * j + 1) * 2 - 1)))
  let dv := jsRoundInt (jsAdd env (jsAdd env (.num b.bp.diastolic) (.num (i * 0.15)))
    (.num (env.rand (4 * j + 2) * 2 - 1)))
  let fhrRaw := jsAdd env (jsAdd env b.fhr (.num (env.sin (i / 3) * 2)))
    (.num (env.rand (4 * j + 3) * 3 - 1.5))
  let rv := jsRoundInt (jsMin (.num 160) (jsMax (.num 120) fhrRaw))
  pure ⟨week, wv, fv, hv, sv, dv, rv⟩

/-- Number of iterations of `for (let i = 1; i <= weeksToProject; i++)`
for a possibly non-integral bound. -/
def iterCount (v : JSVal) : ℕ :=
  match toNum v with
  | some q => if q < 1 then 0 else (⌊q⌋).toNat
  | none => 0

/-- The weekly loop of `generateProgressionData` over the listed
iteration indices: an exception in any iteration propagates (the
partially-pushed arrays are discarded with it). -/
def progRows (env : Env) (startWeek : JSVal) (b : BaseVitals) : List ℕ → Except Unit (List ProgRow)
  | [] => .ok []
  | j :: t => do
    let r ← progRow env startWeek b j
    let rest ← progRows env startWeek b t
    pure (r :: rest)

/-- Source `generateProgressionData(startWeek, weeksToProject, baseVitals)`:
run the weekly loop, collecting the six parallel series. -/
def generateProgressionData (env : Env) (startWeek : JSVal) (weeksToProject : JSVal)
    (b : BaseVitals) : Except Unit ProgressionData := do
  let rows ← progRows env startWeek b (List.range (iterCount weeksToProject))
  pure ⟨rows.map (fun r => ⟨r.week, r.wv⟩), rows.map (fun r => ⟨r.week, r.fv⟩),
    rows.map (fun r => ⟨r.week, r.hv⟩), rows.map (fun r => ⟨r.week, r.sv⟩),
    rows.map (fun r => ⟨r.week, r.dv⟩), rows.map (fun r => ⟨r.week, r.rv⟩)⟩

/-- Source `generateProgression(currentGA, weeksToProject)`: baseline vitals
from the latest visit (`.at(-1)` of the sorted collection) with
defaults, then the raw projection, then the in-place trend adjustment
of the weight and hemoglobin series (`p.value += (p.week - currentGA) *
trend * factor`), modelled as a map producing the adjusted series. -/
def generateProgression (env : Env) (vs : List VisitObj) (currentGA weeksToProject : JSVal) :
    Except Unit ProgressionData := do
  let latest := vs.getLastD default
  let bp := parseBloodPressure latest.BLOOD_PRESSURE
  let base : BaseVitals :=
    ⟨jsOr latest.MATERNAL_WEIGHT (.num 60), jsOr latest.FUNDAL_HEIGHT currentGA,
      jsOr latest.HEMOGLOBIN_LEVEL (.num 11.5), jsOr latest.FETAL_HEART_RATE (.num 145), bp⟩
  let weightTrend := calculateTrend vs .MATERNAL_WEIGHT
  let hbTrend := calculateTrend vs .HEMOGLOBIN_LEVEL
  let progression ← generateProgressionData env currentGA weeksToProject base
  pure { progression with
    weight := progression.weight.map (fun p =>
      ⟨p.week, jsAdd env p.value (jsMul (jsSub p.week currentGA) (jsMul weightTrend (.num 0.1)))⟩),
    hb := progression.hb.map (fun p =>
      ⟨p.week, jsAdd env p.value (jsMul (jsSub p.week currentGA) (jsMul hbTrend (.num 0.02)))⟩) }

/-- The result metadata.  The full pipeline fills all five fields; the
fallback only `source` and `generatedAt`, modelled by `none` in the
other three. -/
structure Metadata where
  currentGestationalAge : Option JSVal := none
  weeksProjected : Option JSVal := none
  visitCount : Option ℕ := none
  generatedAt : String
  source : String
deriving DecidableEq

/-- The `PredictionResult` record.  A fallback result has no
`riskScores` entries (`none` models the empty object) and carries
`isFallback: true`; the full pipeline result has no `isFallback` key
(modelled by `false`). -/
structure PredictionResult where
  deliveryType : DeliveryType
  deliveryMode : DeliveryMode
  progression : Progression
  summary : String
  expectedGestationalAge : ℚ
  expectedBirthWeight : ℚ
  riskScores : Option RiskScores
  isFallback : Bool := false
  metadata : Metadata
deriving DecidableEq

/-- The fixed fallback advisory summary string. -/
def fallbackSummary : String :=
  "Using standard pregnancy progression model - insufficient patient data for personalized prediction."

/-- Source `getFallbackPrediction(atTerm)`: fixed constants, and either the
default-trajectory progression projected from gestational age 12
(`weeksToProject = 28`) or, at term, the empty progression object.  Its
internal projection runs on all-numeric base vitals and therefore
never raises (proved below). -/
def getFallbackPrediction (env : Env) (atTerm : Bool) : Except Unit PredictionResult := do
  let defaultGA : ℚ := 12
  let weeksToProject : ℚ := if atTerm then 0 else 40 - defaultGA
  let baseVitals : BaseVitals := ⟨.num 60, .num 12, .num 11.5, .num 145, ⟨115, 70⟩⟩
  let progression ←
    if atTerm then pure Progression.emptyObj
    else Progression.data <$> generateProgressionData env (.num defaultGA) (.num weeksToProject) baseVitals
  pure { deliveryType := ⟨0.80, 0.15, 0.05⟩, deliveryMode := ⟨0.70, 0.30⟩,
         progression := progression, summary := fallbackSummary,
         expectedGestationalAge := 39.0, expectedBirthWeight := 3.2,
         riskScores := none, isFallback := true,
         metadata := { generatedAt := env.now, source := "fallback-model" } }

/-- The engine instance state: the validated visit collection computed
by the constructor (and mutated in place by `generatePrediction`'s
sort), plus the patient record. -/
structure Engine where
  validatedVisits : List VisitObj
  patient : PatientObj
deriving Inhabited

/-- Source `new PredictionEngine(visits, patient)`. -/
def mkEngine (visits : VisitsInput) (patient : PatientObj) : Engine :=
  ⟨validateVisitsTop visits, patient⟩

/-- Source `generatePrediction()`, with the in-place sort made explicit: the
returned `Engine` is the instance state after the call.  Empty
validated collection ⇒ fallback (state untouched); otherwise the
collection is sorted in place, and if no week remains to project
(`Math.max(0, 40 - currentGA) <= 0`) the at-term fallback is returned;
otherwise the full pipeline runs (and any `TypeError` raised inside it
escapes as `Except.error`). -/
def generatePredictionS (env : Env) (e : Engine) : Except Unit PredictionResult × Engine :=
  if e.validatedVisits.isEmpty then (getFallbackPrediction env false, e)
  else
    let sorted := sortByGA e.validatedVisits
    let e' : Engine := { e with validatedVisits := sorted }
    let latestVisit := sorted.getLastD default
    let currentGA := latestVisit.GESTATIONAL_AGE_WEEKS
    let weeksToProject := jsMax (.num 0) (jsSub (.num 40) currentGA)
    if leLit weeksToProject 0 then (getFallbackPrediction env true, e')
    else
      (do
        let riskScores ← calculateRiskScores sorted e.patient
        let deliveryType := calculateDeliveryTypeProbabilities riskScores
        let deliveryMode := calculateDeliveryModeProbabilities riskScores e.patient
        let ed := calculateExpectedDelivery riskScores deliveryType
        let progression ← generateProgression env sorted currentGA weeksToProject
        let summary := generateSummary riskScores deliveryType deliveryMode
        pure { deliveryType := deliveryType, deliveryMode := deliveryMode,
               progression := .data progression, summary := summary,
               expectedGestationalAge := ed.1, expectedBirthWeight := ed.2,
               riskScores := some riskScores, isFallback := false,
               metadata := { currentGestationalAge := some currentGA,
                             weeksProjected := some weeksToProject,
                             visitCount := some sorted.length,
                             generatedAt := env.now, source := "rule-based-engine" } }, e')

/-- Source `generatePrediction()`'s returned value (discarding the state). -/
def generatePrediction (env : Env) (visits : VisitsInput) (patient : PatientObj) :
    Except Unit PredictionResult :=
  (generatePredictionS env (mkEngine visits patient)).1

/-- Is this value a string? -/
def isStr : JSVal → Bool
  | .str _ => true
  | _ => false

/-- Is this value a number (including `NaN`)? -/
def isNumeric : JSVal → Bool
  | .num _ => true
  | .nan => true
  | _ => false

/-- The element list of the `visits` argument (empty for a non-array
value). -/
def elemsOf : VisitsInput → List VisitObj
  | .arrv l => l
  | .primv _ => []

/-- The numeric gestational age of the latest (maximum-GA) visit of a
collection. -/
def latestGA (vs : List VisitObj) : ℚ := gaQ ((sortByGA vs).getLastD default)

/-- All probabilities of both returned distributions lie in `[0, 1]`
and each distribution sums to `1` within `0.02` — stated of whatever
result the call returns (when it returns one). -/
def DistributionsInRange (x : Except Unit PredictionResult) : Prop :=
  ∀ r, x = .ok r →
    (0 ≤ r.deliveryType.FullTerm ∧ r.deliveryType.FullTerm ≤ 1) ∧
    (0 ≤ r.deliveryType.Premature ∧ r.deliveryType.Premature ≤ 1) ∧
    (0 ≤ r.deliveryType.MortalityRisk ∧ r.deliveryType.MortalityRisk ≤ 1) ∧
    |r.deliveryType.FullTerm + r.deliveryType.Premature + r.deliveryType.MortalityRisk - 1| ≤ 0.02 ∧
    (0 ≤ r.deliveryMode.Normal ∧ r.deliveryMode.Normal ≤ 1) ∧
    (0 ≤ r.deliveryMode.CSection ∧ r.deliveryMode.CSection ≤ 1) ∧
    |r.deliveryMode.Normal + r.deliveryMode.CSection - 1| ≤ 0.02

/-- The fixed constants every fallback result carries. -/
def FallbackConstants (r : PredictionResult) : Prop :=
  r.deliveryType = ⟨0.80, 0.15, 0.05⟩ ∧ r.deliveryMode = ⟨0.70, 0.30⟩ ∧
  r.expectedGestationalAge = 39.0 ∧ r.expectedBirthWeight = 3.2 ∧
  r.riskScores = none ∧ r.isFallback = true ∧ r.summary = fallbackSummary

/-- All six progression series have `n` entries. -/
def SeriesLen (d : ProgressionData) (n : ℕ) : Prop :=
  d.weight.length = n ∧ d.fundal.length = n ∧ d.hb.length = n ∧
  d.systolic.length = n ∧ d.diastolic.length = n ∧ d.fetal_hr.length = n

/-- The week tags of a progression series. -/
def weeksOf (l : List ProgEntry) : List JSVal := l.map (fun p => p.week)

/-- The selection the specification describes for the summary's
primary risk, following its words: "the risk name with the maximum
score (ties broken by the encounter order of the six named scores,
i.e. the first maximal one found)" — a fold that only replaces the
accumulator on a strictly greater score, so the first maximal entry
wins.  Stated for comparison against the source's `primaryPair`. -/
def specFirstMaximalRisk (s : RiskScores) : String :=
  ((riskEntries s).tail.foldl (fun a b => if b.2 > a.2 then b else a) ("anemia", s.anemia)).1

/-- A sample environment for concrete runs: the random stream is
constantly `0`, the sine approximation is constantly `0`, and the
timestamp is fixed. -/
def sampleEnv : Env := ⟨fun _ => 0, fun _ => 0, fun _ => "", "1970-01-01T00:00:00.000Z"⟩

/-- A visit carrying only a gestational age. -/
def visitGA (g : ℚ) : VisitObj := { GESTATIONAL_AGE_WEEKS := .num g }

/-- Concrete input: a valid mid-pregnancy visit together with a patient
whose `MEDICAL_HISTORY` is a number and whose parity is positive. -/
def numericHistoryPatient : PatientObj := { PARITY := .num 2, MEDICAL_HISTORY := .num 42 }

/-- Concrete input: a valid mid-pregnancy visit whose maternal weight
is a (non-numeric) string. -/
def stringWeightVisit : VisitObj :=
  { GESTATIONAL_AGE_WEEKS := .num 20, MATERNAL_WEIGHT := .str "abc" }

/-- The latest-visit vector of the specification's worked example:
hemoglobin 9.5, blood pressure "150/95", fundal height = gestational
age + 6. -/
def workedVisit (ga : ℚ) : VisitObj :=
  { GESTATIONAL_AGE_WEEKS := .num ga, HEMOGLOBIN_LEVEL := .num 9.5,
    BLOOD_PRESSURE := .str "150/95", FUNDAL_HEIGHT := .num (ga + 6) }

/-- The patient of the specification's worked example: BMI 32,
parity 0. -/
def workedPatient : PatientObj := { BMI_VALUE := .num 32, PARITY := .num 0 }

/-- A risk-score set with two scores tied at the maximum (anemia and
hypertension both `0.8`). -/
def tiedScores : RiskScores := ⟨0.8, 0.8, 0.1, 0.1, 0.1, 0.1⟩

/-- Two visits with distinct gestational ages and maternal weights
(trend 1 kg/week). -/
def trendVisits : List VisitObj :=
  [{ GESTATIONAL_AGE_WEEKS := .num 10, MATERNAL_WEIGHT := .num 60 },
   { GESTATIONAL_AGE_WEEKS := .num 20, MATERNAL_WEIGHT := .num 70 }]

/-- Two valid visits supplied in descending gestational-age order. -/
def unsortedVisits : List VisitObj := [visitGA 30, visitGA 20]

/-- Every score of the set lies in `[0, 0.9]` (the largest constant
any branch can produce). -/
def ScoresBounded (s : RiskScores) : Prop :=
  (0 ≤ s.anemia ∧ s.anemia ≤ 0.9) ∧ (0 ≤ s.hypertension ∧ s.hypertension ≤ 0.9) ∧
  (0 ≤ s.growthRestriction ∧ s.growthRestriction ≤ 0.9) ∧
  (0 ≤ s.pretermRisk ∧ s.pretermRisk ≤ 0.9) ∧
  (0 ≤ s.maternalAgeRisk ∧ s.maternalAgeRisk ≤ 0.9) ∧ (0 ≤ s.bmiRisk ∧ s.bmiRisk ≤ 0.9)

/-- The sorted copy of the validated collection used by the trend
estimator. -/
def sortedValid (raw : List VisitObj) : List VisitObj := sortByGA (validateVisits raw)

/-- The metric value of the first visit of the sorted copy. -/
def firstVal (raw : List VisitObj) (f : Field) : JSVal :=
  getField ((sortedValid raw).headD default) f

/-- The metric value of the last visit of the sorted copy. -/
def lastVal (raw : List VisitObj) (f : Field) : JSVal :=
  getField ((sortedValid raw).getLastD default) f

/-- The gestational age of the first visit of the sorted copy. -/
def firstGAq (raw : List VisitObj) : ℚ := gaQ ((sortedValid raw).headD default)

/-- The gestational age of the last visit of the sorted copy. -/
def lastGAq (raw : List VisitObj) : ℚ := gaQ ((sortedValid raw).getLastD default)

/-- The latest visit the orchestrator reads: the last element of the
sorted collection. -/
def latestOf (vs : List VisitObj) : VisitObj := (sortByGA vs).getLastD default

/-- The `weeksToProject` value `Math.max(0, 40 - currentGA)` of a
collection. -/
def wtpOf (vs : List VisitObj) : JSVal :=
  jsMax (.num 0) (jsSub (.num 40) (latestOf vs).GESTATIONAL_AGE_WEEKS)

/-- The record the full pipeline assembles for given risk scores and
progression (the `NORMAL`-state result of the orchestrator). -/
def pipelineResult (env : Env) (vs : List VisitObj) (p : PatientObj) (s : RiskScores)
    (prog : ProgressionData) : PredictionResult :=
  { deliveryType := calculateDeliveryTypeProbabilities s,
    deliveryMode := calculateDeliveryModeProbabilities s p,
    progression := .data prog,
    summary := generateSummary s (calculateDeliveryTypeProbabilities s)
      (calculateDeliveryModeProbabilities s p),
    expectedGestationalAge := (calculateExpectedDelivery s (calculateDeliveryTypeProbabilities s)).1,
    expectedBirthWeight := (calculateExpectedDelivery s (calculateDeliveryTypeProbabilities s)).2,
    riskScores := some s, isFallback := false,
    metadata := { currentGestationalAge := some (latestOf vs).GESTATIONAL_AGE_WEEKS,
                  weeksProjected := some (wtpOf vs), visitCount := some (sortByGA vs).length,
                  generatedAt := env.now, source := "rule-based-engine" } }

instance : IsTotal VisitObj (fun a b => gaQ a ≤ gaQ b) := ⟨fun _ _ => le_total _ _⟩

instance : IsTrans VisitObj (fun a b => gaQ a ≤ gaQ b) := ⟨fun _ _ _ h h' => le_trans h h'⟩

/-! ## Helper lemmas -/

theorem roundTo_mono (d : ℕ) {a b : ℚ} (h : a ≤ b) : roundTo d a ≤ roundTo d b := by
  unfold roundTo
  have hp : (0 : ℚ) < 10 ^ d := by positivity
  have hm : a * 10 ^ d + 1 / 2 ≤ b * 10 ^ d + 1 / 2 := by
    have := mul_le_mul_of_nonneg_right h hp.le
    linarith
  exact div_le_div_of_nonneg_right (by exact_mod_cast Int.floor_le_floor hm) hp.le

theorem getLastD_mem' {α : Type _} {l : List α} (h : l ≠ []) (d : α) : l.getLastD d ∈ l := by
  cases l with
  | nil => exact absurd rfl h
  | cons a t => rw [List.getLastD_cons]; exact List.getLastD_mem_cons t a

theorem headD_mem' {α : Type _} {l : List α} (h : l ≠ []) (d : α) : l.headD d ∈ l := by
  cases l with
  | nil => exact absurd rfl h
  | cons a t => simp

theorem mem_validateVisits {v : VisitObj} {l : List VisitObj} (h : v ∈ validateVisits l) :
    gaKeep v = true ∧ ∃ u ∈ l, v = normalizeVisit u := by
  rw [validateVisits] at h
  have h1 := List.mem_filter.1 h
  obtain ⟨u, hu, hv⟩ := List.mem_map.1 h1.1
  exact ⟨h1.2, u, hu, hv.symm⟩

theorem validated_ga {v : VisitObj} {l : List VisitObj} (h : v ∈ validateVisits l) :
    toNum v.GESTATIONAL_AGE_WEEKS = some (gaQ v) ∧ 0 < gaQ v
      ∧ truthy v.GESTATIONAL_AGE_WEEKS = true := by
  obtain ⟨hk, -⟩ := mem_validateVisits h
  rw [gaKeep, Bool.and_eq_true] at hk
  obtain ⟨ht, hg⟩ := hk
  rcases hn : toNum v.GESTATIONAL_AGE_WEEKS with _ | q
  · simp [gtLit, hn] at hg
  · simp only [gtLit, hn, decide_eq_true_eq] at hg
    refine ⟨?_, ?_, ht⟩ <;> simp [gaQ, hn, hg]

theorem normalize_getField (u : VisitObj) (f : Field) :
    getField (normalizeVisit u) f = jsOrNull (getField u f) := by
  cases f <;> rfl

theorem validated_field_or_null {v : VisitObj} {l : List VisitObj} (f : Field)
    (h : v ∈ validateVisits l) :
    truthy (getField v f) = true ∨ getField v f = .null := by
  obtain ⟨-, u, -, hv⟩ := mem_validateVisits h
  subst hv
  rw [normalize_getField, jsOrNull, jsOr]
  by_cases ht : truthy (getField u f) <;> simp [ht]

theorem sortByGA_ne_nil {l : List VisitObj} (h : l ≠ []) : sortByGA l ≠ [] := by
  rw [sortByGA]
  intro h0
  apply h
  have := congrArg List.length h0
  rw [List.length_insertionSort] at this
  exact List.eq_nil_of_length_eq_zero this

theorem mem_of_mem_sortByGA {v : VisitObj} {l : List VisitObj} (h : v ∈ sortByGA l) : v ∈ l :=
  (List.mem_insertionSort _).1 h

theorem sortByGA_head_le_last (l : List VisitObj) :
    gaQ ((sortByGA l).headD default) ≤ gaQ ((sortByGA l).getLastD default) := by
  have hs : List.Sorted (fun a b => gaQ a ≤ gaQ b) (sortByGA l) :=
    List.sorted_insertionSort _ _
  rcases hsl : sortByGA l with _ | ⟨a, t⟩
  · simp
  · rw [hsl] at hs
    have hmem : (a :: t).getLastD default ∈ a :: t := by
      rw [List.getLastD_cons]; exact List.getLastD_mem_cons t a
    rcases List.mem_cons.1 hmem with heq | hmem'
    · rw [List.headD_cons, heq]
    · rw [List.headD_cons]
      exact List.rel_of_sorted_cons hs _ hmem'

theorem calculateTrend_eq (vs : List VisitObj) (f : Field) (h : ¬ vs.length < 2) :
    calculateTrend vs f =
      if truthy (getField ((sortByGA vs).headD default) f) = false
          ∨ truthy (getField ((sortByGA vs).getLastD default) f) = false then .num 0
      else if gtLit (jsSub ((sortByGA vs).getLastD default).GESTATIONAL_AGE_WEEKS
          ((sortByGA vs).headD default).GESTATIONAL_AGE_WEEKS) 0 then
        jsDiv (jsSub (getField ((sortByGA vs).getLastD default) f)
            (getField ((sortByGA vs).headD default) f))
          (jsSub ((sortByGA vs).getLastD default).GESTATIONAL_AGE_WEEKS
            ((sortByGA vs).headD default).GESTATIONAL_AGE_WEEKS)
      else .num 0 := by
  rw [calculateTrend, if_neg h]

/-! ## Claim theorems -/

/-- Claim C6: The blood-pressure parser maps `"120/80"` to
`{systolic: 120, diastolic: 80}`; maps an absent, empty, or unparsable
input such as `"abc"` to the fallback `{115, 70}`; falls back per
component on partially-parsable strings (`"abc/80"` keeps the parsable
denominator, `"120/xyz"` keeps the parsable numerator); and — being a
total function, with the `try`/`catch` absorbing the `TypeError` of a
truthy non-string such as the number `130` — never raises an error to
its caller. -/
theorem claim6_bloodPressureParser :
    parseBloodPressure (.str "120/80") = ⟨120, 80⟩
  ∧ parseBloodPressure .undef = ⟨115, 70⟩
  ∧ parseBloodPressure .null = ⟨115, 70⟩
  ∧ parseBloodPressure (.str "") = ⟨115, 70⟩
  ∧ parseBloodPressure (.str "abc") = ⟨115, 70⟩
  ∧ parseBloodPressure (.str "abc/80") = ⟨115, 80⟩
  ∧ parseBloodPressure (.str "120/xyz") = ⟨120, 70⟩
  ∧ parseBloodPressure (.num 130) = ⟨115, 70⟩ := by decide

/-- Claim C9: The expected-delivery estimator computes exactly the
described conditional adjustments — gestational age `36.5` when
`Premature > 0.3`, else `38.0` when `Premature > 0.15`, else the
baseline `39.2`; weight `3.3` minus `0.5`/`0.3`/`0.2` for
growth-restriction/hypertension/anemia above `0.5` and a further `0.4`
when the adjusted age is below `37.5` — and after clamping and
one-decimal rounding, the returned age always lies in `[35, 40]` and
the returned weight in `[2.5, 4]`. -/
theorem claim9_expectedDelivery (s : RiskScores) (dt : DeliveryType) :
    (calculateExpectedDelivery s dt).1
      = roundTo 1 (min 40.0 (max 35.0
          (if dt.Premature > 0.3 then 36.5 else if dt.Premature > 0.15 then 38.0 else 39.2)))
  ∧ (calculateExpectedDelivery s dt).2
      = roundTo 1 (min 4.0 (max 2.5 ((3.3 : ℚ)
          - (if s.growthRestriction > 0.5 then 0.5 else 0)
          - (if s.hypertension > 0.5 then 0.3 else 0)
          - (if s.anemia > 0.5 then 0.2 else 0)
          - (if (if dt.Premature > 0.3 then (36.5 : ℚ)
                 else if dt.Premature > 0.15 then 38.0 else 39.2) < 37.5 then 0.4 else 0))))
  ∧ 35 ≤ (calculateExpectedDelivery s dt).1 ∧ (calculateExpectedDelivery s dt).1 ≤ 40
  ∧ 2.5 ≤ (calculateExpectedDelivery s dt).2 ∧ (calculateExpectedDelivery s dt).2 ≤ 4 := by
  refine ⟨rfl, rfl, ?_, ?_, ?_, ?_⟩
  · have h1 : (35 : ℚ) ≤ min 40.0 (max 35.0
        (if dt.Premature > 0.3 then 36.5 else if dt.Premature > 0.15 then 38.0 else 39.2)) :=
      le_min (by norm_num) (le_max_left _ _)
    have h2 : roundTo 1 35 = 35 := by decide
    calc (35 : ℚ) = roundTo 1 35 := h2.symm
      _ ≤ _ := roundTo_mono 1 h1
  · have h1 : min 40.0 (max 35.0
        (if dt.Premature > 0.3 then 36.5 else if dt.Premature > 0.15 then 38.0 else 39.2))
        ≤ (40 : ℚ) := min_le_left _ _
    have h2 : roundTo 1 40 = 40 := by decide
    calc (calculateExpectedDelivery s dt).1 ≤ roundTo 1 40 := roundTo_mono 1 h1
      _ = 40 := h2
  · have h1 : (2.5 : ℚ) ≤ min 4.0 (max 2.5 ((3.3 : ℚ)
        - (if s.growthRestriction > 0.5 then 0.5 else 0)
        - (if s.hypertension > 0.5 then 0.3 else 0)
        - (if s.anemia > 0.5 then 0.2 else 0)
        - (if (if dt.Premature > 0.3 then (36.5 : ℚ)
               else if dt.Premature > 0.15 then 38.0 else 39.2) < 37.5 then 0.4 else 0))) :=
      le_min (by norm_num) (le_max_left _ _)
    have h2 : roundTo 1 2.5 = 2.5 := by decide
    calc (2.5 : ℚ) = roundTo 1 2.5 := h2.symm
      _ ≤ _ := roundTo_mono 1 h1
  · have h1 : min 4.0 (max 2.5 ((3.3 : ℚ)
        - (if s.growthRestriction > 0.5 then 0.5 else 0)
        - (if s.hypertension > 0.5 then 0.3 else 0)
        - (if s.anemia > 0.5 then 0.2 else 0)
        - (if (if dt.Premature > 0.3 then (36.5 : ℚ)
               else if dt.Premature > 0.15 then 38.0 else 39.2) < 37.5 then 0.4 else 0)))
        ≤ (4 : ℚ) := min_le_left _ _
    have h2 : roundTo 1 4 = 4 := by decide
    calc (calculateExpectedDelivery s dt).2 ≤ roundTo 1 4 := roundTo_mono 1 h1
      _ = 4 := h2

/-- Claim C7: `validateVisits` returns exactly the normalized versions of
the input elements whose gestational age is present (truthy) and
strictly positive, in the input order (the filter-of-map equation and
sublist fact pin the order); every surviving record satisfies the keep
predicate; and each normalized field is the original coalesced with
`|| null`.  All operations are total: the normalizer never throws. -/
theorem claim7_visitNormalizer (l : List VisitObj) :
    validateVisits l = (l.filter (fun v => gaKeep (normalizeVisit v))).map normalizeVisit
  ∧ (validateVisits l).all gaKeep = true
  ∧ (validateVisits l).Sublist (l.map normalizeVisit)
  ∧ ∀ (v : VisitObj) (f : Field), getField (normalizeVisit v) f = jsOrNull (getField v f) := by
  refine ⟨?_, ?_, ?_, ?_⟩
  · rw [validateVisits, List.filter_map]
    rfl
  · simp only [validateVisits, List.all_eq_true]
    intro x hx
    exact (List.mem_filter.1 hx).2
  · exact List.filter_sublist _
  · intro v f
    cases f <;> rfl

theorem foldl_max_keepLater (l : List (String × ℚ)) (a : String × ℚ) :
    ∃ pre post,
      a :: l = pre ++ (l.foldl (fun a b => if a.2 > b.2 then a else b) a) :: post
      ∧ (∀ e ∈ pre, e.2 ≤ (l.foldl (fun a b => if a.2 > b.2 then a else b) a).2)
      ∧ (∀ e ∈ post, e.2 < (l.foldl (fun a b => if a.2 > b.2 then a else b) a).2) := by
  induction l generalizing a with
  | nil => exact ⟨[], [], rfl, by simp, by simp⟩
  | cons b t ih =>
    obtain ⟨pre', post', heq, hpre, hpost⟩ :=
      ih (if a.2 > b.2 then a else b)
    simp only [List.foldl_cons]
    by_cases h : a.2 > b.2
    · rw [if_pos h] at heq hpre hpost ⊢
      cases pre' with
      | nil =>
        rw [List.nil_append] at heq
        injection heq with ha ht
        refine ⟨[], b :: t, ?_, by simp, ?_⟩
        · rw [List.nil_append, ← ha]
        · intro e he
          rcases List.mem_cons.1 he with rfl | he
          · rw [← ha]; exact h
          · exact hpost e (ht ▸ he)
      | cons x pre'' =>
        rw [List.cons_append] at heq
        injection heq with hax ht
        refine ⟨a :: b :: pre'', post', ?_, ?_, hpost⟩
        · rw [List.cons_append, List.cons_append, ← ht]
        · intro e he
          rcases List.mem_cons.1 he with rfl | he
          · exact hax ▸ hpre x (List.mem_cons_self x pre'')
          · rcases List.mem_cons.1 he with rfl | he
            · exact le_trans h.le (hax ▸ hpre x (List.mem_cons_self x pre''))
            · exact hpre e (List.mem_cons_of_mem x he)
    · rw [if_neg h] at heq hpre hpost ⊢
      refine ⟨a :: pre', post', by rw [List.cons_append, ← heq], ?_, hpost⟩
      intro e he
      rcases List.mem_cons.1 he with rfl | he
      · have hb : b.2 ≤ (t.foldl (fun a b => if a.2 > b.2 then a else b) b).2 := by
          cases pre' with
          | nil =>
            rw [List.nil_append] at heq
            injection heq with hb ht
            exact le_of_eq (congrArg Prod.snd hb)
          | cons x pre'' =>
            rw [List.cons_append] at heq
            injection heq with hb ht
            exact hb ▸ hpre x (List.mem_cons_self x pre'')
        exact le_trans (not_lt.1 h) hb
      · exact hpre e he

/-- Claim C5, amended: The summary generator's reduce keeps the
accumulator only on a strictly greater score, so with two or more
scores tied at the maximum it selects the **last** maximal score in
the encounter order (anemia, hypertension, growthRestriction,
pretermRisk, maternalAgeRisk, bmiRisk) — every earlier entry scores at
most the selected one and every later entry scores strictly less. -/
theorem claim5_tieBreak_amended (s : RiskScores) :
    ∃ pre post,
      riskEntries s = pre ++ (primaryPair s) :: post
      ∧ pre.all (fun e => decide (e.2 ≤ (primaryPair s).2)) = true
      ∧ post.all (fun e => decide (e.2 < (primaryPair s).2)) = true := by
  obtain ⟨pre, post, heq, hpre, hpost⟩ :=
    foldl_max_keepLater (riskEntries s).tail ("anemia", s.anemia)
  refine ⟨pre, post, heq, ?_, ?_⟩
  · simp only [List.all_eq_true, decide_eq_true_eq]
    exact fun e he => hpre e he
  · simp only [List.all_eq_true, decide_eq_true_eq]
    exact fun e he => hpost e he

/-- Claim C5, counterexample: With anemia and hypertension tied at the
maximum `0.8`, the source selects `hypertension` — the *last* maximal
score — while the claim's rule ("the first maximal one found") selects
`anemia`; the difference is observable in the generated summary
sentence. -/
theorem claim5_counterexample :
    (primaryPair tiedScores).1 = "hypertension"
  ∧ specFirstMaximalRisk tiedScores = "anemia"
  ∧ tiedScores.anemia = tiedScores.hypertension
  ∧ generateSummary tiedScores ⟨0.79, 0.16, 0.05⟩ ⟨1, 0⟩
      = "Elevated hypertension risk requires close monitoring. 16% premature delivery risk. Consider specialist consultation." := by
  decide

/-- Claim C10, amended: The only in-place mutation of the validated
visit collection during `generatePrediction` is the initial sort by
ascending gestational age: after any call the stored collection is
exactly the stable sort of what it was before (in particular the same
multiset), no later stage mutates it, and from the second call onward
the observed collection is unchanged (sorting is idempotent). -/
theorem claim10_mutation_amended (env : Env) (e : Engine) :
    (generatePredictionS env e).2.validatedVisits = sortByGA e.validatedVisits
  ∧ (sortByGA e.validatedVisits).Perm e.validatedVisits
  ∧ ∀ env2 : Env, (generatePredictionS env2 (generatePredictionS env e).2).2.validatedVisits
      = (generatePredictionS env e).2.validatedVisits := by
  have key : ∀ (env' : Env) (e' : Engine),
      (generatePredictionS env' e').2.validatedVisits = sortByGA e'.validatedVisits := by
    intro env' e'
    by_cases h : e'.validatedVisits.isEmpty
    · have h0 : e'.validatedVisits = [] := List.isEmpty_iff.1 h
      rw [generatePredictionS, if_pos h, h0, sortByGA, List.insertionSort]
    · rw [generatePredictionS, if_neg h]
      dsimp only
      split <;> rfl
  have idem : sortByGA (sortByGA e.validatedVisits) = sortByGA e.validatedVisits :=
    List.Sorted.insertionSort_eq (List.sorted_insertionSort _ _)
  refine ⟨key env e, List.perm_insertionSort _ _, fun env2 => ?_⟩
  rw [key env2 _, key env e, idem]

/-- Claim C10, counterexample: For two valid visits supplied in
descending gestational-age order, a `generatePrediction` call mutates
the stored validated collection in place (the sort reorders it), so
the collection observed afterwards differs from the one the
constructor produced — refuting "never mutated in place by any
downstream step". -/
theorem claim10_counterexample :
    (generatePredictionS sampleEnv (mkEngine (.arrv unsortedVisits) {})).2.validatedVisits
      ≠ (mkEngine (.arrv unsortedVisits) {}).validatedVisits := by decide

/-- Claim C8: Over any validated visit set and metric field, the trend
estimator returns `0` with fewer than two visits; with two or more it
sorts a copy ascending by gestational age and returns `0` when the
first or last metric value is missing (`null`) or when the
gestational-age span is zero, and `(last - first) / (lastGA - firstGA)`
otherwise (stated for numeric metric values; a validated field is never
the number `0`, so truthiness coincides with presence). -/
theorem claim8_trendEstimator (raw : List VisitObj) (f : Field) :
    ((validateVisits raw).length < 2 → calculateTrend (validateVisits raw) f = .num 0)
  ∧ (2 ≤ (validateVisits raw).length →
      (firstVal raw f = .null ∨ lastVal raw f = .null →
        calculateTrend (validateVisits raw) f = .num 0)
    ∧ ∀ a b : ℚ, firstVal raw f = .num a → lastVal raw f = .num b →
        (lastGAq raw = firstGAq raw → calculateTrend (validateVisits raw) f = .num 0)
      ∧ (lastGAq raw ≠ firstGAq raw →
          calculateTrend (validateVisits raw) f
            = .num ((b - a) / (lastGAq raw - firstGAq raw)))) := by
  constructor
  · intro h
    rw [calculateTrend, if_pos h]
  · intro h2
    have hlt : ¬ (validateVisits raw).length < 2 := not_lt.2 h2
    have hne : validateVisits raw ≠ [] := by
      intro h0
      rw [h0] at h2
      simp at h2
    have hsne : sortByGA (validateVisits raw) ≠ [] := sortByGA_ne_nil hne
    have hheadmem : (sortByGA (validateVisits raw)).headD default ∈ validateVisits raw :=
      mem_of_mem_sortByGA (headD_mem' hsne default)
    have hlastmem : (sortByGA (validateVisits raw)).getLastD default ∈ validateVisits raw :=
      mem_of_mem_sortByGA (getLastD_mem' hsne default)
    have hgahead := validated_ga hheadmem
    have hgalast := validated_ga hlastmem
    have hweek : jsSub ((sortByGA (validateVisits raw)).getLastD default).GESTATIONAL_AGE_WEEKS
        ((sortByGA (validateVisits raw)).headD default).GESTATIONAL_AGE_WEEKS
        = .num (lastGAq raw - firstGAq raw) := by
      rw [jsSub, hgahead.1, hgalast.1]
      rfl
    constructor
    · intro hnull
      have hcond : truthy (getField ((sortByGA (validateVisits raw)).headD default) f) = false
          ∨ truthy (getField ((sortByGA (validateVisits raw)).getLastD default) f) = false := by
        rcases hnull with hnull | hnull
        · left; rw [firstVal, sortedValid] at hnull; rw [hnull]; rfl
        · right; rw [lastVal, sortedValid] at hnull; rw [hnull]; rfl
      rw [calculateTrend_eq _ _ hlt, if_pos hcond]
    · intro a b hfa hlb
      rw [firstVal, sortedValid] at hfa
      rw [lastVal, sortedValid] at hlb
      have hta : truthy (getField ((sortByGA (validateVisits raw)).headD default) f) = true := by
        rcases validated_field_or_null f hheadmem with ht | hn
        · exact ht
        · rw [hfa] at hn; exact absurd hn (by simp)
      have htb : truthy (getField ((sortByGA (validateVisits raw)).getLastD default) f)
          = true := by
        rcases validated_field_or_null f hlastmem with ht | hn
        · exact ht
        · rw [hlb] at hn; exact absurd hn (by simp)
      have hcond : ¬ (truthy (getField ((sortByGA (validateVisits raw)).headD default) f) = false
          ∨ truthy (getField ((sortByGA (validateVisits raw)).getLastD default) f) = false) := by
        rw [hta, htb]; simp
      constructor
      · intro hzero
        rw [calculateTrend_eq _ _ hlt, if_neg hcond, hweek]
        have hg : gtLit (JSVal.num (lastGAq raw - firstGAq raw)) 0 = false := by
          simp [gtLit, toNum, hzero]
        rw [hg]
        simp
      · intro hnz
        have hle : firstGAq raw ≤ lastGAq raw := by
          rw [firstGAq, lastGAq, sortedValid]
          exact sortByGA_head_le_last _
        have hltq : firstGAq raw < lastGAq raw := lt_of_le_of_ne hle (Ne.symm hnz)
        have hg : gtLit (JSVal.num (lastGAq raw - firstGAq raw)) 0 = true := by
          simp only [gtLit, toNum, decide_eq_true_eq]
          linarith
        rw [calculateTrend_eq _ _ hlt, if_neg hcond, hweek, hg, if_pos rfl, hfa, hlb]
        have hd : lastGAq raw - firstGAq raw ≠ 0 := sub_ne_zero.mpr hnz
        simp [jsSub, jsDiv, toNum, hd]

/-- Claim C8, witness: Two visits at gestational ages 10 and 20 with
maternal weights 60 and 70: the estimator returns the slope
`(70 - 60) / (20 - 10)`. -/
theorem claim8_trendEstimator_witness :
    2 ≤ (validateVisits trendVisits).length
  ∧ calculateTrend (validateVisits trendVisits) Field.MATERNAL_WEIGHT
      = .num ((70 - 60) / (lastGAq trendVisits - firstGAq trendVisits)) :=
  ⟨by decide, (((claim8_trendEstimator trendVisits .MATERNAL_WEIGHT).2 (by decide)).2 60 70
      (by decide) (by decide)).2 (by decide)⟩

theorem growth_eval (ga : ℚ) (h : 0 < ga) : growthScore (workedVisit ga) = 0.7 := by
  have h1 : truthy (JSVal.num (ga + 6)) = true := by
    simp only [truthy, decide_eq_true_eq]
    intro h0
    linarith
  have h2 : truthy (JSVal.num ga) = true := by
    simp only [truthy, decide_eq_true_eq]
    exact ne_of_gt h
  have hd : jsAbs (jsSub (JSVal.num (ga + 6)) (JSVal.num ga)) = .num 6 := by
    simp only [jsSub, jsAbs, toNum]
    norm_num
  rw [growthScore]
  simp only [workedVisit] at *
  rw [h1, h2]
  simp only [Bool.and_self, if_pos, hd]
  decide

theorem preterm_eval (ga : ℚ) : pretermScore (JSVal.num ga) workedPatient
    = .ok (if ltLit (JSVal.num ga) 32 then (0.3 : ℚ) else 0.1) := by
  have hh : hasPretermHistory workedPatient = .ok false := by decide
  cases h37 : ltLit (JSVal.num ga) 37 <;>
    simp [pretermScore, h37, hh, Bind.bind, Except.bind, pure, Except.pure]

/-- Claim C4: For a latest visit with hemoglobin 9.5, blood pressure
`"150/95"`, fundal height equal to gestational age plus 6 (any
positive gestational age), and a patient with BMI 32 and parity 0, the
risk scorer yields anemia 0.8, hypertension 0.9, growth restriction
0.7 and BMI risk 0.5 (the preterm score `pr` is whatever the
gestational-age band dictates and is not constrained by the claim),
and the delivery-mode model yields exactly
`{Normal: 0.30, CSection: 0.70}` — the C-section risk
`min(0.7, 0.4·0.9 + 0.3·0.7 + 0.2·0.5 + 0.1) = 0.7` capped. -/
theorem claim4_workedExample (ga : ℚ) (h : 0 < ga) :
    ∃ pr, calculateRiskScores [workedVisit ga] workedPatient
        = .ok ⟨0.8, 0.9, 0.7, pr, 0.1, 0.5⟩
      ∧ calculateDeliveryModeProbabilities ⟨0.8, 0.9, 0.7, pr, 0.1, 0.5⟩ workedPatient
        = ⟨0.30, 0.70⟩ := by
  refine ⟨if ltLit (JSVal.num ga) 32 then (0.3 : ℚ) else 0.1, ?_, ?_⟩
  · rw [calculateRiskScores]
    rw [show ([workedVisit ga].getLastD default) = workedVisit ga from rfl]
    rw [show (workedVisit ga).GESTATIONAL_AGE_WEEKS = JSVal.num ga from rfl]
    rw [preterm_eval ga]
    simp only [Bind.bind, Except.bind, pure, Except.pure]
    rw [growth_eval ga h]
    rfl
  · dsimp only [calculateDeliveryModeProbabilities, workedPatient]
    rw [if_pos (Or.inl rfl)]
    have hmin : min (0.7 : ℚ) (0.9 * 0.4 + 0.7 * 0.3 + 0.5 * 0.2 + 0.1) = 0.7 := by
      rw [min_def]
      norm_num
    rw [hmin]
    have h1 : roundProbability (1 - 0.7) = 0.30 := by decide
    have h2 : roundProbability 0.7 = 0.70 := by decide
    rw [h1, h2]

/-- Claim C4, witness: The worked example at gestational age 30. -/
theorem claim4_workedExample_witness :
    (0 : ℚ) < 30
  ∧ ∃ pr, calculateRiskScores [workedVisit 30] workedPatient
        = .ok ⟨0.8, 0.9, 0.7, pr, 0.1, 0.5⟩
      ∧ calculateDeliveryModeProbabilities ⟨0.8, 0.9, 0.7, pr, 0.1, 0.5⟩ workedPatient
        = ⟨0.30, 0.70⟩ :=
  ⟨by norm_num, claim4_workedExample 30 (by norm_num)⟩

theorem gp_empty (env : Env) (e : Engine) (h : e.validatedVisits = []) :
    generatePredictionS env e = (getFallbackPrediction env false, e) := by
  rw [generatePredictionS, if_pos (by simp [h])]

theorem gp_branch (env : Env) (e : Engine) (h : e.validatedVisits.isEmpty = false)
    (hle : leLit (wtpOf e.validatedVisits) 0 = false) :
    (generatePredictionS env e).1
      = Except.bind (calculateRiskScores (sortByGA e.validatedVisits) e.patient) (fun s =>
          Except.bind (generateProgression env (sortByGA e.validatedVisits)
              (latestOf e.validatedVisits).GESTATIONAL_AGE_WEEKS (wtpOf e.validatedVisits))
            (fun prog => Except.ok (pipelineResult env e.validatedVisits e.patient s prog))) := by
  rw [generatePredictionS, if_neg (by simp [h])]
  dsimp only
  rw [if_neg (by rw [show (jsMax (JSVal.num 0) (jsSub (JSVal.num 40)
      ((sortByGA e.validatedVisits).getLastD default).GESTATIONAL_AGE_WEEKS))
      = wtpOf e.validatedVisits from rfl, hle]; simp)]
  simp only [Bind.bind, pure, Except.pure, pipelineResult, latestOf, wtpOf]

theorem gp_atTerm (env : Env) (e : Engine) (h : e.validatedVisits.isEmpty = false)
    (hle : leLit (wtpOf e.validatedVisits) 0 = true) :
    generatePredictionS env e = (getFallbackPrediction env true,
      { e with validatedVisits := sortByGA e.validatedVisits }) := by
  rw [generatePredictionS, if_neg (by simp [h])]
  dsimp only
  rw [if_pos (by rw [show (jsMax (JSVal.num 0) (jsSub (JSVal.num 40)
      ((sortByGA e.validatedVisits).getLastD default).GESTATIONAL_AGE_WEEKS))
      = wtpOf e.validatedVisits from rfl, hle])]

theorem jsAdd_numeric (env : Env) {a : JSVal} (h : isNumeric a = true) (q : ℚ) :
    isNumeric (jsAdd env a (.num q)) = true := by
  cases a <;> simp_all [jsAdd, isNumeric, toNum]

theorem jsSub_numeric (a b : JSVal) : isNumeric (jsSub a b) = true := by
  rw [jsSub]
  cases toNum a <;> cases toNum b <;> simp [isNumeric]

theorem jsMax_numeric (a b : JSVal) : isNumeric (jsMax a b) = true := by
  rw [jsMax]
  cases toNum a <;> cases toNum b <;> simp [isNumeric]

theorem roundValue_ok_of_numeric {v : JSVal} (h : isNumeric v = true) (d : ℕ) :
    ∃ w, roundValue v d = .ok w := by
  cases v <;> simp_all [roundValue, isNumeric]

theorem progRow_num_ok (env : Env) (s : ℚ) (b : BaseVitals) (j : ℕ)
    (hw : isNumeric b.weight = true) :
    ∃ row, progRow env (.num s) b j = .ok row ∧ row.week = .num (s + ((j : ℚ) + 1)) := by
  obtain ⟨wv, hwv⟩ := roundValue_ok_of_numeric
    (jsAdd_numeric env hw (((j : ℚ) + 1) * 0.35)) 1
  have hsnum : isNumeric (JSVal.num s) = true := rfl
  obtain ⟨fv, hfv⟩ := roundValue_ok_of_numeric
    (jsAdd_numeric env (jsAdd_numeric env hsnum ((j : ℚ) + 1))
      (env.rand (4 * j) * 2 - 1)) 1
  obtain ⟨hv, hhv⟩ := roundValue_ok_of_numeric
    (jsMax_numeric (JSVal.num 10.5) (jsSub b.hb (JSVal.num (((j : ℚ) + 1) * 0.05)))) 1
  refine ⟨⟨jsAdd env (JSVal.num s) (JSVal.num ((j : ℚ) + 1)), wv, fv, hv,
    jsRoundInt (jsAdd env (jsAdd env (.num b.bp.systolic) (.num (((j : ℚ) + 1) * 0.25)))
      (.num (env.rand (4 * j + 1) * 2 - 1))),
    jsRoundInt (jsAdd env (jsAdd env (.num b.bp.diastolic) (.num (((j : ℚ) + 1) * 0.15)))
      (.num (env.rand (4 * j + 2) * 2 - 1))),
    jsRoundInt (jsMin (.num 160) (jsMax (.num 120)
      (jsAdd env (jsAdd env b.fhr (.num (env.sin (((j : ℚ) + 1) / 3) * 2)))
        (.num (env.rand (4 * j + 3) * 3 - 1.5)))))⟩, ?_, ?_⟩
  · rw [progRow]
    simp only [hwv, hfv, hhv, Bind.bind, Except.bind, pure, Except.pure]
  · simp [jsAdd, toNum]
theorem progRows_num_ok (env : Env) (s : ℚ) (b : BaseVitals)
    (hw : isNumeric b.weight = true) (js : List ℕ) :
    ∃ rows, progRows env (.num s) b js = .ok rows ∧ rows.length = js.length
      ∧ rows.map (fun r => r.week) = js.map (fun j : ℕ => JSVal.num (s + ((j : ℚ) + 1))) := by
  induction js with
  | nil => exact ⟨[], rfl, rfl, rfl⟩
  | cons j t ih =>
    obtain ⟨rows, hr, hlen, hweeks⟩ := ih
    obtain ⟨row, hrow, hweek⟩ := progRow_num_ok env s b j hw
    refine ⟨row :: rows, ?_, by simp [hlen], by simp [hweeks, hweek]⟩
    rw [progRows]
    simp only [hrow, hr, Bind.bind, Except.bind, pure, Except.pure]

theorem generateProgressionData_num_ok (env : Env) (s : ℚ) (wtp : JSVal) (b : BaseVitals)
    (hw : isNumeric b.weight = true) :
    ∃ d, generateProgressionData env (.num s) wtp b = .ok d
      ∧ SeriesLen d (iterCount wtp)
      ∧ weeksOf d.weight
          = (List.range (iterCount wtp)).map (fun j : ℕ => JSVal.num (s + ((j : ℚ) + 1))) := by
  obtain ⟨rows, hr, hlen, hweeks⟩ := progRows_num_ok env s b hw (List.range (iterCount wtp))
  refine ⟨⟨rows.map (fun r => ⟨r.week, r.wv⟩), rows.map (fun r => ⟨r.week, r.fv⟩),
    rows.map (fun r => ⟨r.week, r.hv⟩), rows.map (fun r => ⟨r.week, r.sv⟩),
    rows.map (fun r => ⟨r.week, r.dv⟩), rows.map (fun r => ⟨r.week, r.rv⟩)⟩, ?_, ?_, ?_⟩
  · rw [generateProgressionData]
    simp only [hr, Bind.bind, Except.bind, pure, Except.pure]
  · simp [SeriesLen, hlen]
  · rw [weeksOf, List.map_map, ← hweeks]
    rfl

theorem iterCount_28 : iterCount (JSVal.num (40 - 12)) = 28 := by decide

theorem getFallbackPrediction_shape (env : Env) (b : Bool) :
    ∃ r, getFallbackPrediction env b = .ok r ∧ FallbackConstants r
      ∧ (b = true → r.progression = .emptyObj)
      ∧ (b = false → ∃ d, r.progression = .data d ∧ SeriesLen d 28
          ∧ weeksOf d.weight = (List.range 28).map (fun j : ℕ => JSVal.num (13 + (j : ℚ)))) := by
  cases b with
  | true =>
    refine ⟨_, rfl, ?_, fun _ => rfl, by simp⟩
    exact ⟨rfl, rfl, rfl, rfl, rfl, rfl, rfl⟩
  | false =>
    obtain ⟨d, hd, hlen, hweeks⟩ := generateProgressionData_num_ok env 12
      (.num (40 - 12)) ⟨.num 60, .num 12, .num 11.5, .num 145, ⟨115, 70⟩⟩ rfl
    rw [iterCount_28] at hlen hweeks
    refine ⟨{ deliveryType := ⟨0.80, 0.15, 0.05⟩, deliveryMode := ⟨0.70, 0.30⟩,
              progression := .data d, summary := fallbackSummary,
              expectedGestationalAge := 39.0, expectedBirthWeight := 3.2,
              riskScores := none, isFallback := true,
              metadata := { generatedAt := env.now, source := "fallback-model" } },
      ?_, ?_, by simp, ?_⟩
    · rw [getFallbackPrediction]
      simp only [Bool.false_eq_true, if_neg, ite_false, hd, Functor.map, Except.map,
        Bind.bind, Except.bind, pure, Except.pure]
    · exact ⟨rfl, rfl, rfl, rfl, rfl, rfl, rfl⟩
    · intro hb
      refine ⟨d, rfl, hlen, ?_⟩
      rw [hweeks]
      apply List.map_congr_left
      intro j hj
      congr 1
      ring

theorem hasPretermHistory_ok {p : PatientObj} (h : isNumeric p.MEDICAL_HISTORY = false) :
    ∃ b, hasPretermHistory p = .ok b := by
  rw [hasPretermHistory]
  by_cases hp : (gtLit p.PARITY 0 || decide (p.PARITY = JSVal.str "1")) = true
  · rw [if_pos hp]
    cases hmh : p.MEDICAL_HISTORY <;> simp_all [isNumeric, pure, Except.pure]
  · rw [if_neg hp]
    exact ⟨false, rfl⟩

theorem pretermScore_ok {p : PatientObj} (ga : JSVal)
    (h : isNumeric p.MEDICAL_HISTORY = false) :
    ∃ q, pretermScore ga p = .ok q := by
  obtain ⟨b, hb⟩ := hasPretermHistory_ok h
  rw [pretermScore]
  by_cases h37 : ltLit ga 37 = true
  · rw [if_pos h37]
    cases b <;> simp [hb, Bind.bind, Except.bind, pure, Except.pure]
  · rw [if_neg h37]
    exact ⟨_, rfl⟩

theorem calculateRiskScores_ok {p : PatientObj} (vs : List VisitObj)
    (h : isNumeric p.MEDICAL_HISTORY = false) :
    ∃ s, calculateRiskScores vs p = .ok s := by
  obtain ⟨q, hq⟩ := pretermScore_ok (vs.getLastD default).GESTATIONAL_AGE_WEEKS h
  refine ⟨⟨anemiaScore (vs.getLastD default), hypertensionScore (vs.getLastD default),
    growthScore (vs.getLastD default), q, ageScore p, bmiScore p⟩, ?_⟩
  rw [calculateRiskScores]
  simp only [hq, Bind.bind, Except.bind, pure, Except.pure]

theorem validated_weight_numeric {v : VisitObj} {l : List VisitObj}
    (hmem : v ∈ validateVisits l) (hs : isStr v.MATERNAL_WEIGHT = false) :
    isNumeric (jsOr v.MATERNAL_WEIGHT (.num 60)) = true := by
  have hfield := validated_field_or_null Field.MATERNAL_WEIGHT hmem
  rw [show getField v Field.MATERNAL_WEIGHT = v.MATERNAL_WEIGHT from rfl] at hfield
  rcases hfield with ht | hn
  · cases hv : v.MATERNAL_WEIGHT <;> rw [hv] at ht hs <;>
      simp_all [jsOr, truthy, isNumeric, isStr]
  · rw [hn]
    rfl

theorem validated_ga_num {v : VisitObj} {l : List VisitObj} (hmem : v ∈ validateVisits l)
    (hs : isStr v.GESTATIONAL_AGE_WEEKS = false) :
    v.GESTATIONAL_AGE_WEEKS = .num (gaQ v) := by
  obtain ⟨hsome, hpos, ht⟩ := validated_ga hmem
  cases hv : v.GESTATIONAL_AGE_WEEKS <;> rw [hv] at hsome ht hs <;>
    simp_all [toNum, truthy, isStr, gaQ, hv]

theorem generateProgression_ok (env : Env) (vs : List VisitObj) (g : ℚ) (wtp : JSVal)
    (hw : isNumeric (jsOr (vs.getLastD default).MATERNAL_WEIGHT (.num 60)) = true) :
    ∃ d, generateProgression env vs (.num g) wtp = .ok d := by
  obtain ⟨d, hd, -, -⟩ := generateProgressionData_num_ok env g wtp
    ⟨jsOr (vs.getLastD default).MATERNAL_WEIGHT (.num 60),
     jsOr (vs.getLastD default).FUNDAL_HEIGHT (.num g),
     jsOr (vs.getLastD default).HEMOGLOBIN_LEVEL (.num 11.5),
     jsOr (vs.getLastD default).FETAL_HEART_RATE (.num 145),
     parseBloodPressure (vs.getLastD default).BLOOD_PRESSURE⟩ hw
  refine ⟨{ d with
    weight := d.weight.map (fun p => ⟨p.week, jsAdd env p.value (jsMul (jsSub p.week (.num g))
      (jsMul (calculateTrend vs .MATERNAL_WEIGHT) (.num 0.1)))⟩),
    hb := d.hb.map (fun p => ⟨p.week, jsAdd env p.value (jsMul (jsSub p.week (.num g))
      (jsMul (calculateTrend vs .HEMOGLOBIN_LEVEL) (.num 0.02)))⟩) }, ?_⟩
  rw [generateProgression]
  simp only [hd, Bind.bind, Except.bind, pure, Except.pure]

theorem wtp_num {l : List VisitObj} (hne : validateVisits l ≠ []) :
    wtpOf (validateVisits l) = .num (max 0 (40 - latestGA (validateVisits l))) := by
  have hmem : latestOf (validateVisits l) ∈ validateVisits l :=
    mem_of_mem_sortByGA (getLastD_mem' (sortByGA_ne_nil hne) default)
  obtain ⟨hsome, -, -⟩ := validated_ga hmem
  rw [wtpOf, jsSub]
  rw [show toNum (JSVal.num 40) = some 40 from rfl, hsome]
  rw [show gaQ (latestOf (validateVisits l)) = latestGA (validateVisits l) from rfl]
  rfl

theorem leLit_wtp_iff {l : List VisitObj} (hne : validateVisits l ≠ []) :
    leLit (wtpOf (validateVisits l)) 0 = true ↔ 40 ≤ latestGA (validateVisits l) := by
  rw [wtp_num hne]
  simp only [leLit, toNum, decide_eq_true_eq, max_le_iff]
  constructor
  · intro ⟨h1, h2⟩
    linarith
  · intro h
    constructor <;> linarith

theorem normalize_not_isStr {u : VisitObj} {f : Field} (h : isStr (getField u f) = false) :
    isStr (getField (normalizeVisit u) f) = false := by
  rw [normalize_getField, jsOrNull, jsOr]
  by_cases ht : truthy (getField u f)
  · rw [if_pos ht]
    exact h
  · rw [if_neg ht]
    rfl

/-- Claim C1, amended: `generatePrediction` never raises provided every
supplied visit's gestational age and maternal weight are numbers or
absent (not strings), and the patient's medical history is not a
number: under these conditions the call always returns a result.
(Without them it can raise a `TypeError` — see the counterexample.) -/
theorem claim1_neverThrows_amended (env : Env) (visits : VisitsInput) (patient : PatientObj)
    (hGA : ∀ v ∈ elemsOf visits, isStr v.GESTATIONAL_AGE_WEEKS = false)
    (hMW : ∀ v ∈ elemsOf visits, isStr v.MATERNAL_WEIGHT = false)
    (hMH : isNumeric patient.MEDICAL_HISTORY = false) :
    ∃ r, generatePrediction env visits patient = .ok r := by
  rw [generatePrediction]
  by_cases hemp : (mkEngine visits patient).validatedVisits = []
  · rw [gp_empty env _ hemp]
    obtain ⟨r, hr, -⟩ := getFallbackPrediction_shape env false
    exact ⟨r, hr⟩
  · obtain ⟨l, hl, helems⟩ : ∃ l, (mkEngine visits patient).validatedVisits = validateVisits l
        ∧ elemsOf visits = l := by
      cases visits with
      | arrv l => exact ⟨l, rfl, rfl⟩
      | primv v => exact absurd rfl hemp
    have hnev : validateVisits l ≠ [] := hl ▸ hemp
    have hB : (mkEngine visits patient).validatedVisits.isEmpty = false := by
      rw [hl]
      exact List.isEmpty_eq_false.2 hnev
    have hmemGA : ∀ v ∈ validateVisits l, isStr v.GESTATIONAL_AGE_WEEKS = false := by
      intro v hv
      obtain ⟨-, u, hu, hvu⟩ := mem_validateVisits hv
      subst hvu
      exact normalize_not_isStr (f := .GESTATIONAL_AGE_WEEKS) (hGA u (helems ▸ hu))
    have hmemMW : ∀ v ∈ validateVisits l, isStr v.MATERNAL_WEIGHT = false := by
      intro v hv
      obtain ⟨-, u, hu, hvu⟩ := mem_validateVisits hv
      subst hvu
      exact normalize_not_isStr (f := .MATERNAL_WEIGHT) (hMW u (helems ▸ hu))
    by_cases hle : leLit (wtpOf (mkEngine visits patient).validatedVisits) 0 = true
    · have := gp_atTerm env _ hB hle
      rw [show (generatePredictionS env (mkEngine visits patient)).1
          = getFallbackPrediction env true from by rw [this]]
      obtain ⟨r, hr, -⟩ := getFallbackPrediction_shape env true
      exact ⟨r, hr⟩
    · rw [gp_branch env _ hB (Bool.not_eq_true _ ▸ hle : _ = false)]
      have hlmem : latestOf (mkEngine visits patient).validatedVisits ∈ validateVisits l := by
        rw [hl]
        exact mem_of_mem_sortByGA (getLastD_mem' (sortByGA_ne_nil hnev) default)
      have hganum : (latestOf (mkEngine visits patient).validatedVisits).GESTATIONAL_AGE_WEEKS
          = .num (gaQ (latestOf (mkEngine visits patient).validatedVisits)) :=
        validated_ga_num hlmem (hmemGA _ hlmem)
      obtain ⟨s, hs⟩ := calculateRiskScores_ok
        (p := (mkEngine visits patient).patient)
        (sortByGA (mkEngine visits patient).validatedVisits) hMH
      have hlsame : (sortByGA (mkEngine visits patient).validatedVisits).getLastD default
          = latestOf (mkEngine visits patient).validatedVisits := rfl
      obtain ⟨d, hd⟩ := generateProgression_ok env
        (sortByGA (mkEngine visits patient).validatedVisits)
        (gaQ (latestOf (mkEngine visits patient).validatedVisits))
        (wtpOf (mkEngine visits patient).validatedVisits)
        (by rw [hlsame]; exact validated_weight_numeric hlmem (hmemMW _ hlmem))
      rw [hs, hganum]
      simp only [Except.bind]
      rw [hd]
      exact ⟨_, rfl⟩

/-- Claim C1, counterexample: Constructing the engine on a single valid
mid-pregnancy visit and a patient whose `MEDICAL_HISTORY` is the
number `42` with parity `2`, `generatePrediction` raises a `TypeError`
(`.toLowerCase` is called on a number by `hasPretermHistory`), refuting
"returns a result without raising any exception" for arbitrary patient
objects. -/
theorem claim1_neverThrows_counterexample :
    generatePrediction sampleEnv (.arrv [visitGA 20]) numericHistoryPatient
      = .error () := by decide

/-- Claim C1, witness: A well-typed single-visit input satisfies the
amended hypotheses and yields a result. -/
theorem claim1_neverThrows_witness :
    (∀ v ∈ elemsOf (.arrv [visitGA 39.5]), isStr v.GESTATIONAL_AGE_WEEKS = false)
  ∧ (∀ v ∈ elemsOf (.arrv [visitGA 39.5]), isStr v.MATERNAL_WEIGHT = false)
  ∧ isNumeric (PatientObj.mk .undef .undef .undef .undef).MEDICAL_HISTORY = false
  ∧ ∃ r, generatePrediction sampleEnv (.arrv [visitGA 39.5])
      (PatientObj.mk .undef .undef .undef .undef) = .ok r :=
  ⟨by decide, by decide, by decide,
    claim1_neverThrows_amended sampleEnv _ _ (by decide) (by decide) (by decide)⟩

/-- Claim C2, amended: The fallback policy: with an empty validated
visit set `generatePrediction` returns exactly the non-at-term fallback
result — the fixed constants (delivery type `{0.80, 0.15, 0.05}`, mode
`{0.70, 0.30}`, expected age `39.0`, weight `3.2`, empty risk scores,
`isFallback`, the fixed advisory summary) with 28 weekly entries per
series at weeks 13..40 projected from the default gestational age 12;
with a latest gestational age at or past 40 it returns exactly the
at-term fallback — same constants, empty progression object; in all
other cases, **whenever the call returns a result**, that result is a
full pipeline result without the fallback flag and with a non-empty
risk-score set.  (The original claim's unconditional "returns a full
pipeline result" fails: on some malformed inputs the call throws — see
the counterexample.) -/
theorem claim2_fallback_amended (env : Env) (visits : VisitsInput) (patient : PatientObj) :
    ((mkEngine visits patient).validatedVisits = [] →
      generatePrediction env visits patient = getFallbackPrediction env false
      ∧ ∃ r d, getFallbackPrediction env false = .ok r ∧ FallbackConstants r
          ∧ r.progression = .data d ∧ SeriesLen d 28
          ∧ weeksOf d.weight = (List.range 28).map (fun j : ℕ => JSVal.num (13 + (j : ℚ))))
  ∧ ((mkEngine visits patient).validatedVisits ≠ [] →
      40 ≤ latestGA (mkEngine visits patient).validatedVisits →
      generatePrediction env visits patient = getFallbackPrediction env true
      ∧ ∃ r, getFallbackPrediction env true = .ok r ∧ FallbackConstants r
          ∧ r.progression = .emptyObj)
  ∧ ((mkEngine visits patient).validatedVisits ≠ [] →
      latestGA (mkEngine visits patient).validatedVisits < 40 →
      ∀ r, generatePrediction env visits patient = .ok r →
        r.isFallback = false ∧ r.riskScores.isSome = true) := by
  refine ⟨?_, ?_, ?_⟩
  · intro hemp
    constructor
    · rw [generatePrediction, gp_empty env _ hemp]
    · obtain ⟨r, hr, hc, -, hd⟩ := getFallbackPrediction_shape env false
      obtain ⟨d, hpd, hlen, hweeks⟩ := hd rfl
      exact ⟨r, d, hr, hc, hpd, hlen, hweeks⟩
  · intro hne h40
    obtain ⟨l, hl⟩ : ∃ l, (mkEngine visits patient).validatedVisits = validateVisits l := by
      cases visits with
      | arrv l => exact ⟨l, rfl⟩
      | primv v => exact absurd rfl hne
    have hnev : validateVisits l ≠ [] := hl ▸ hne
    have hB : (mkEngine visits patient).validatedVisits.isEmpty = false := by
      rw [hl]
      exact List.isEmpty_eq_false.2 hnev
    have hle : leLit (wtpOf (mkEngine visits patient).validatedVisits) 0 = true := by
      rw [hl]
      rw [hl] at h40
      exact (leLit_wtp_iff hnev).2 h40
    constructor
    · rw [generatePrediction, gp_atTerm env _ hB hle]
    · obtain ⟨r, hr, hc, he, -⟩ := getFallbackPrediction_shape env true
      exact ⟨r, hr, hc, he rfl⟩
  · intro hne hlt r hr
    obtain ⟨l, hl⟩ : ∃ l, (mkEngine visits patient).validatedVisits = validateVisits l := by
      cases visits with
      | arrv l => exact ⟨l, rfl⟩
      | primv v => exact absurd rfl hne
    have hnev : validateVisits l ≠ [] := hl ▸ hne
    have hB : (mkEngine visits patient).validatedVisits.isEmpty = false := by
      rw [hl]
      exact List.isEmpty_eq_false.2 hnev
    have hle : leLit (wtpOf (mkEngine visits patient).validatedVisits) 0 = false := by
      rw [hl]
      rw [hl] at hlt
      rw [Bool.eq_false_iff]
      intro h
      have := (leLit_wtp_iff hnev).1 h
      linarith
    rw [generatePrediction, gp_branch env _ hB hle] at hr
    rcases hs : calculateRiskScores (sortByGA (mkEngine visits patient).validatedVisits)
        (mkEngine visits patient).patient with u | s
    · rw [hs] at hr
      simp [Except.bind] at hr
    · rw [hs] at hr
      simp only [Except.bind] at hr
      rcases hp : generateProgression env (sortByGA (mkEngine visits patient).validatedVisits)
          (latestOf (mkEngine visits patient).validatedVisits).GESTATIONAL_AGE_WEEKS
          (wtpOf (mkEngine visits patient).validatedVisits) with u | prog
      · rw [hp] at hr
        simp [Except.bind] at hr
      · rw [hp] at hr
        simp only [Except.bind, Except.ok.injEq] at hr
        rw [← hr]
        exact ⟨rfl, rfl⟩

/-- Claim C2, counterexample: A single valid visit at gestational age 20
whose maternal weight is the string `"abc"`: the validated set is
non-empty and the latest age is below 40 — an "other case" — yet the
call raises (`.toFixed` on a concatenated string) instead of returning
a full pipeline result, refuting the original claim's final clause. -/
theorem claim2_fallback_counterexample :
    (mkEngine (.arrv [stringWeightVisit]) (PatientObj.mk .undef .undef .undef .undef)).validatedVisits ≠ []
  ∧ latestGA (mkEngine (.arrv [stringWeightVisit])
      (PatientObj.mk .undef .undef .undef .undef)).validatedVisits < 40
  ∧ generatePrediction sampleEnv (.arrv [stringWeightVisit])
      (PatientObj.mk .undef .undef .undef .undef) = .error () :=
  ⟨by decide, by decide, by decide⟩

/-- Claim C2, witness: The three branches exercised concretely: no
visits; a single at-term visit (GA 41); a single mid-pregnancy visit
(GA 39.5) whose pipeline result carries no fallback flag. -/
theorem claim2_fallback_witness :
    ((mkEngine (.arrv []) (PatientObj.mk .undef .undef .undef .undef)).validatedVisits = []
      ∧ generatePrediction sampleEnv (.arrv []) (PatientObj.mk .undef .undef .undef .undef)
          = getFallbackPrediction sampleEnv false)
  ∧ (40 ≤ latestGA (mkEngine (.arrv [visitGA 41])
        (PatientObj.mk .undef .undef .undef .undef)).validatedVisits
      ∧ generatePrediction sampleEnv (.arrv [visitGA 41])
          (PatientObj.mk .undef .undef .undef .undef) = getFallbackPrediction sampleEnv true)
  ∧ ((pipelineResult sampleEnv
        (mkEngine (.arrv [visitGA 39.5]) (PatientObj.mk .undef .undef .undef .undef)).validatedVisits
        (PatientObj.mk .undef .undef .undef .undef)
        ⟨0, 0, 0, 0.1, 0.1, 0⟩ ⟨[], [], [], [], [], []⟩).isFallback = false
      ∧ (pipelineResult sampleEnv
        (mkEngine (.arrv [visitGA 39.5]) (PatientObj.mk .undef .undef .undef .undef)).validatedVisits
        (PatientObj.mk .undef .undef .undef .undef)
        ⟨0, 0, 0, 0.1, 0.1, 0⟩ ⟨[], [], [], [], [], []⟩).riskScores.isSome = true) :=
  ⟨⟨by decide, ((claim2_fallback_amended sampleEnv (.arrv [])
      (PatientObj.mk .undef .undef .undef .undef)).1 (by decide)).1⟩,
   ⟨by decide, ((claim2_fallback_amended sampleEnv (.arrv [visitGA 41])
      (PatientObj.mk .undef .undef .undef .undef)).2.1 (by decide) (by decide)).1⟩,
   (claim2_fallback_amended sampleEnv (.arrv [visitGA 39.5])
      (PatientObj.mk .undef .undef .undef .undef)).2.2 (by decide) (by decide) _ (by decide)⟩

theorem roundProbability_nonneg {q : ℚ} (h : 0 ≤ q) : 0 ≤ roundProbability q := by
  rw [roundProbability, qRound]
  apply div_nonneg _ (by norm_num)
  have h1 : (0 : ℤ) ≤ ⌊q * 100 + 1 / 2⌋ := by
    apply Int.le_floor.2
    push_cast
    linarith
  exact_mod_cast h1

theorem roundProbability_le_one {q : ℚ} (h : q ≤ 1) : roundProbability q ≤ 1 := by
  rw [roundProbability, qRound]
  rw [div_le_one (by norm_num)]
  have h1 : ⌊q * 100 + 1 / 2⌋ ≤ ⌊(201 : ℚ) / 2⌋ := Int.floor_le_floor (by linarith)
  have h2 : ⌊(201 : ℚ) / 2⌋ = 100 := by decide
  rw [h2] at h1
  exact_mod_cast h1

theorem abs_roundProbability_sub (q : ℚ) : |roundProbability q - q| ≤ 1 / 200 := by
  rw [roundProbability, qRound, abs_le]
  have h1 : (⌊q * 100 + 1 / 2⌋ : ℚ) ≤ q * 100 + 1 / 2 := Int.floor_le _
  have h2 : q * 100 + 1 / 2 - 1 < (⌊q * 100 + 1 / 2⌋ : ℚ) := Int.sub_one_lt_floor _
  constructor <;> linarith

theorem anemiaScore_bounds (v : VisitObj) : 0 ≤ anemiaScore v ∧ anemiaScore v ≤ 0.9 := by
  rw [anemiaScore]
  constructor <;> (split_ifs <;> norm_num)

theorem hypertensionScore_bounds (v : VisitObj) :
    0 ≤ hypertensionScore v ∧ hypertensionScore v ≤ 0.9 := by
  rw [hypertensionScore]
  dsimp only
  constructor <;> (split_ifs <;> norm_num)

theorem growthScore_bounds (v : VisitObj) : 0 ≤ growthScore v ∧ growthScore v ≤ 0.9 := by
  rw [growthScore]
  dsimp only
  constructor <;> (split_ifs <;> norm_num)

theorem ageScore_bounds (p : PatientObj) : 0 ≤ ageScore p ∧ ageScore p ≤ 0.9 := by
  rw [ageScore]
  constructor <;> (split_ifs <;> norm_num)

theorem bmiScore_bounds (p : PatientObj) : 0 ≤ bmiScore p ∧ bmiScore p ≤ 0.9 := by
  rw [bmiScore]
  constructor <;> (split_ifs <;> norm_num)

theorem pretermScore_bounds {ga : JSVal} {p : PatientObj} {q : ℚ}
    (h : pretermScore ga p = .ok q) : 0 ≤ q ∧ q ≤ 0.9 := by
  rw [pretermScore] at h
  by_cases h37 : ltLit ga 37 = true
  · rw [if_pos h37] at h
    rcases hh : hasPretermHistory p with u | b
    · rw [hh] at h
      simp [Bind.bind, Except.bind] at h
    · rw [hh] at h
      simp only [Bind.bind, Except.bind] at h
      by_cases hb : b = true
      · rw [if_pos hb] at h
        rw [show (pure (0.6 : ℚ) : Except Unit ℚ) = Except.ok 0.6 from rfl] at h
        injection h with h
        subst h
        norm_num
      · rw [if_neg hb] at h
        by_cases h32 : ltLit ga 32 = true
        · rw [if_pos h32] at h
          rw [show (pure (0.3 : ℚ) : Except Unit ℚ) = Except.ok 0.3 from rfl] at h
          injection h with h
          subst h
          norm_num
        · rw [if_neg h32] at h
          rw [show (pure (0.1 : ℚ) : Except Unit ℚ) = Except.ok 0.1 from rfl] at h
          injection h with h
          subst h
          norm_num
  · rw [if_neg h37] at h
    by_cases h32 : ltLit ga 32 = true
    · rw [if_pos h32] at h
      rw [show (pure (0.3 : ℚ) : Except Unit ℚ) = Except.ok 0.3 from rfl] at h
      injection h with h
      subst h
      norm_num
    · rw [if_neg h32] at h
      rw [show (pure (0.1 : ℚ) : Except Unit ℚ) = Except.ok 0.1 from rfl] at h
      injection h with h
      subst h
      norm_num

theorem calculateRiskScores_bounded {vs : List VisitObj} {p : PatientObj} {s : RiskScores}
    (h : calculateRiskScores vs p = .ok s) : ScoresBounded s := by
  rw [calculateRiskScores] at h
  rcases hq : pretermScore (vs.getLastD default).GESTATIONAL_AGE_WEEKS p with u | q
  · rw [hq] at h
    simp [Bind.bind, Except.bind] at h
  · rw [hq] at h
    simp only [Bind.bind, Except.bind, pure, Except.pure, Except.ok.injEq] at h
    subst h
    exact ⟨anemiaScore_bounds _, hypertensionScore_bounds _, growthScore_bounds _,
      pretermScore_bounds hq, ageScore_bounds _, bmiScore_bounds _⟩

theorem deliveryType_inRange {s : RiskScores} (hb : ScoresBounded s) :
    (0 ≤ (calculateDeliveryTypeProbabilities s).FullTerm
      ∧ (calculateDeliveryTypeProbabilities s).FullTerm ≤ 1)
  ∧ (0 ≤ (calculateDeliveryTypeProbabilities s).Premature
      ∧ (calculateDeliveryTypeProbabilities s).Premature ≤ 1)
  ∧ (0 ≤ (calculateDeliveryTypeProbabilities s).MortalityRisk
      ∧ (calculateDeliveryTypeProbabilities s).MortalityRisk ≤ 1)
  ∧ |(calculateDeliveryTypeProbabilities s).FullTerm
      + (calculateDeliveryTypeProbabilities s).Premature
      + (calculateDeliveryTypeProbabilities s).MortalityRisk - 1| ≤ 0.02 := by
  obtain ⟨⟨a0, a9⟩, ⟨h0, h9⟩, ⟨g0, g9⟩, ⟨p0, p9⟩, ⟨m0, m9⟩, ⟨b0, b9⟩⟩ := hb
  rw [calculateDeliveryTypeProbabilities]
  dsimp only
  set t := (s.anemia + s.hypertension + s.growthRestriction + s.pretermRisk
    + s.maternalAgeRisk + s.bmiRisk) / 6 with hts
  have ht0 : 0 ≤ t := by
    rw [hts]
    apply div_nonneg _ (by norm_num)
    linarith
  have ht1 : t ≤ 0.9 := by
    rw [hts, div_le_iff₀ (by norm_num)]
    linarith
  have htm : 0 ≤ t * 0.3 ∧ 0 ≤ t * 0.2 ∧ 0 ≤ t * 0.1 ∧ t * 0.3 ≤ 0.27 := by
    refine ⟨by nlinarith, by nlinarith, by nlinarith, by nlinarith⟩
  set ft := max 0.4 (0.80 - t * 0.3) with hft
  set pm := min 0.4 (0.15 + t * 0.2) with hpm
  set mr := min 0.2 (0.05 + t * 0.1) with hmr
  have hft01 : 0.4 ≤ ft ∧ ft ≤ 0.8 :=
    ⟨le_max_left _ _, max_le (by norm_num) (by linarith [htm.1])⟩
  have hpm01 : 0.15 ≤ pm ∧ pm ≤ 0.4 :=
    ⟨le_min (by norm_num) (by linarith [htm.2.1]), min_le_left _ _⟩
  have hmr01 : 0.05 ≤ mr ∧ mr ≤ 0.2 :=
    ⟨le_min (by norm_num) (by linarith [htm.2.2.1]), min_le_left _ _⟩
  have hsum : 0 < ft + pm + mr := by linarith [hft01.1, hpm01.1, hmr01.1]
  have hq1 : 0 ≤ ft / (ft + pm + mr) := div_nonneg (by linarith [hft01.1]) hsum.le
  have hq1' : ft / (ft + pm + mr) ≤ 1 := by
    rw [div_le_one hsum]
    linarith [hpm01.1, hmr01.1]
  have hq2 : 0 ≤ pm / (ft + pm + mr) := div_nonneg (by linarith [hpm01.1]) hsum.le
  have hq2' : pm / (ft + pm + mr) ≤ 1 := by
    rw [div_le_one hsum]
    linarith [hft01.1, hmr01.1]
  have hq3 : 0 ≤ mr / (ft + pm + mr) := div_nonneg (by linarith [hmr01.1]) hsum.le
  have hq3' : mr / (ft + pm + mr) ≤ 1 := by
    rw [div_le_one hsum]
    linarith [hft01.1, hpm01.1]
  have hqsum : ft / (ft + pm + mr) + pm / (ft + pm + mr) + mr / (ft + pm + mr) = 1 := by
    field_simp
  refine ⟨⟨roundProbability_nonneg hq1, roundProbability_le_one hq1'⟩,
    ⟨roundProbability_nonneg hq2, roundProbability_le_one hq2'⟩,
    ⟨roundProbability_nonneg hq3, roundProbability_le_one hq3'⟩, ?_⟩
  have e : roundProbability (ft / (ft + pm + mr)) + roundProbability (pm / (ft + pm + mr))
      + roundProbability (mr / (ft + pm + mr)) - 1
      = (roundProbability (ft / (ft + pm + mr)) - ft / (ft + pm + mr))
        + ((roundProbability (pm / (ft + pm + mr)) - pm / (ft + pm + mr))
          + (roundProbability (mr / (ft + pm + mr)) - mr / (ft + pm + mr))) := by
    rw [← hqsum]
    ring
  rw [e]
  have t1 := abs_roundProbability_sub (ft / (ft + pm + mr))
  have t2 := abs_roundProbability_sub (pm / (ft + pm + mr))
  have t3 := abs_roundProbability_sub (mr / (ft + pm + mr))
  calc |(roundProbability (ft / (ft + pm + mr)) - ft / (ft + pm + mr))
        + ((roundProbability (pm / (ft + pm + mr)) - pm / (ft + pm + mr))
          + (roundProbability (mr / (ft + pm + mr)) - mr / (ft + pm + mr)))|
      ≤ |roundProbability (ft / (ft + pm + mr)) - ft / (ft + pm + mr)|
        + |(roundProbability (pm / (ft + pm + mr)) - pm / (ft + pm + mr))
          + (roundProbability (mr / (ft + pm + mr)) - mr / (ft + pm + mr))| := abs_add _ _
    _ ≤ |roundProbability (ft / (ft + pm + mr)) - ft / (ft + pm + mr)|
        + (|roundProbability (pm / (ft + pm + mr)) - pm / (ft + pm + mr)|
          + |roundProbability (mr / (ft + pm + mr)) - mr / (ft + pm + mr)|) := by
        linarith [abs_add (roundProbability (pm / (ft + pm + mr)) - pm / (ft + pm + mr))
          (roundProbability (mr / (ft + pm + mr)) - mr / (ft + pm + mr))]
    _ ≤ 0.02 := by linarith

theorem deliveryMode_inRange {s : RiskScores} (p : PatientObj) (hb : ScoresBounded s) :
    (0 ≤ (calculateDeliveryModeProbabilities s p).Normal
      ∧ (calculateDeliveryModeProbabilities s p).Normal ≤ 1)
  ∧ (0 ≤ (calculateDeliveryModeProbabilities s p).CSection
      ∧ (calculateDeliveryModeProbabilities s p).CSection ≤ 1)
  ∧ |(calculateDeliveryModeProbabilities s p).Normal
      + (calculateDeliveryModeProbabilities s p).CSection - 1| ≤ 0.02 := by
  obtain ⟨⟨a0, a9⟩, ⟨h0, h9⟩, ⟨g0, g9⟩, ⟨p0, p9⟩, ⟨m0, m9⟩, ⟨b0, b9⟩⟩ := hb
  rw [calculateDeliveryModeProbabilities]
  dsimp only
  have hite : 0 ≤ (if p.PARITY = JSVal.num 0 ∨ p.PARITY = JSVal.str "0" then (0.1 : ℚ) else 0)
      ∧ (if p.PARITY = JSVal.num 0 ∨ p.PARITY = JSVal.str "0" then (0.1 : ℚ) else 0) ≤ 0.1 := by
    constructor <;> (split_ifs <;> norm_num)
  have hraw : 0 ≤ s.hypertension * 0.4 + s.growthRestriction * 0.3 + s.bmiRisk * 0.2
      + (if p.PARITY = JSVal.num 0 ∨ p.PARITY = JSVal.str "0" then (0.1 : ℚ) else 0) := by
    nlinarith [hite.1]
  set cs := min 0.7 (s.hypertension * 0.4 + s.growthRestriction * 0.3 + s.bmiRisk * 0.2
    + (if p.PARITY = JSVal.num 0 ∨ p.PARITY = JSVal.str "0" then (0.1 : ℚ) else 0)) with hcs
  have hcs0 : 0 ≤ cs := le_min (by norm_num) hraw
  have hcs1 : cs ≤ 0.7 := min_le_left _ _
  have hn0 : 0 ≤ 1 - cs := by linarith
  have hn1 : 1 - cs ≤ 1 := by linarith
  refine ⟨⟨roundProbability_nonneg hn0, roundProbability_le_one hn1⟩,
    ⟨roundProbability_nonneg hcs0, roundProbability_le_one (by linarith)⟩, ?_⟩
  have e : roundProbability (1 - cs) + roundProbability cs - 1
      = (roundProbability (1 - cs) - (1 - cs)) + (roundProbability cs - cs) := by ring
  rw [e]
  have t1 := abs_roundProbability_sub (1 - cs)
  have t2 := abs_roundProbability_sub cs
  calc |(roundProbability (1 - cs) - (1 - cs)) + (roundProbability cs - cs)|
      ≤ |roundProbability (1 - cs) - (1 - cs)| + |roundProbability cs - cs| := abs_add _ _
    _ ≤ 0.02 := by linarith

/-- Claim C3: For every non-empty validated visit set and patient record,
whatever result `generatePrediction` returns carries a delivery-type
distribution with each of its three probabilities in `[0, 1]` and sum
within `0.02` of `1`, and a delivery-mode distribution with each of its
two probabilities in `[0, 1]` and sum within `0.02` of `1` (this covers
both the at-term fallback's fixed distributions and the full
pipeline's renormalized-then-rounded ones). -/
theorem claim3_distributionsInRange (env : Env) (visits : VisitsInput) (patient : PatientObj)
    (h : (mkEngine visits patient).validatedVisits ≠ []) :
    DistributionsInRange (generatePrediction env visits patient) := by
  intro r hr
  obtain ⟨l, hl⟩ : ∃ l, (mkEngine visits patient).validatedVisits = validateVisits l := by
    cases visits with
    | arrv l => exact ⟨l, rfl⟩
    | primv v => exact absurd rfl h
  have hnev : validateVisits l ≠ [] := hl ▸ h
  have hB : (mkEngine visits patient).validatedVisits.isEmpty = false := by
    rw [hl]
    exact List.isEmpty_eq_false.2 hnev
  by_cases hle : leLit (wtpOf (mkEngine visits patient).validatedVisits) 0 = true
  · rw [generatePrediction, gp_atTerm env _ hB hle] at hr
    obtain ⟨r', hr', ⟨hdt, hdm, -⟩, -, -⟩ := getFallbackPrediction_shape env true
    rw [hr'] at hr
    injection hr with hrr
    subst hrr
    rw [hdt, hdm]
    norm_num
  · rw [generatePrediction,
      gp_branch env _ hB (Bool.not_eq_true _ ▸ hle : _ = false)] at hr
    rcases hs : calculateRiskScores (sortByGA (mkEngine visits patient).validatedVisits)
        (mkEngine visits patient).patient with u | s
    · rw [hs] at hr
      simp [Except.bind] at hr
    · rw [hs] at hr
      simp only [Except.bind] at hr
      rcases hp : generateProgression env (sortByGA (mkEngine visits patient).validatedVisits)
          (latestOf (mkEngine visits patient).validatedVisits).GESTATIONAL_AGE_WEEKS
          (wtpOf (mkEngine visits patient).validatedVisits) with u | prog
      · rw [hp] at hr
        simp [Except.bind] at hr
      · rw [hp] at hr
        simp only [Except.bind, Except.ok.injEq] at hr
        subst hr
        have hbs := calculateRiskScores_bounded hs
        obtain ⟨hd1, hd2, hd3, hd4⟩ := deliveryType_inRange hbs
        obtain ⟨hm1, hm2, hm3⟩ := deliveryMode_inRange (mkEngine visits patient).patient hbs
        exact ⟨hd1, hd2, hd3, hd4, hm1, hm2, hm3⟩

/-- Claim C3, witness: A single valid visit at gestational age 39.5
satisfies the non-emptiness hypothesis. -/
theorem claim3_distributionsInRange_witness :
    (mkEngine (.arrv [visitGA 39.5]) (PatientObj.mk .undef .undef .undef .undef)).validatedVisits ≠ []
  ∧ DistributionsInRange (generatePrediction sampleEnv (.arrv [visitGA 39.5])
      (PatientObj.mk .undef .undef .undef .undef)) :=
  ⟨by decide, claim3_distributionsInRange sampleEnv (.arrv [visitGA 39.5])
    (PatientObj.mk .undef .undef .undef .undef) (by decide)⟩

end PredictionEngine
